import Mathlib

/-!
# RePrimAnd: barotropic spline EOS and thermal EOS interface

Shallow embedding of `library/EOS_Barotropic/eos_barotr_spline.cc`,
`library/EOS_Thermal/eos_thermal.cc` and the constants of
`con2prim/minimal.cc`.

`real_t` is embedded as `ℚ` (exact arithmetic).  The interval type, the
spline engine, the polytropic crust and the class declarations
(`intervals.h`, `interpol_*`, `eos_barotr_gpoly`, `eos_thermal_impl.h`) are
not part of the embedded sources; they enter as records of the operations
the embedded code calls on them.
-/

namespace EOS_Toolkit

/-- Scalar type of the library (`real_t`), embedded exactly. -/
abbrev real_t := ℚ

/-- Errors raised by the embedded code, one constructor per `throw` site. -/
inductive Error where
  /-- Thrown by `interval(min, max)` with `min > max`. -/
  | invalid_interval
  /-- Message "matching polytrope outside sampled range for g-1". -/
  | matching_outside_gm1
  /-- Message "matching polytrope outside sampled range for rho". -/
  | matching_outside_rho
  /-- Message "negative mass density in rho(gm1)". -/
  | negative_density
  /-- Message "sound speed >= 1". -/
  | csnd_ge_one
  /-- Message "sound speed < 0". -/
  | csnd_negative
  /-- Message "negative pressure". -/
  | negative_pressure
  /-- Message "encountered g < 1". -/
  | g_less_one
  /-- Message "encountered negative temperature". -/
  | negative_temperature
  /-- Message "zero-temperature EOS must be isentropic". -/
  | zerotemp_not_isentropic
  /-- Message "electron fraction not available.". -/
  | efrac_not_available
  /-- Message "invalid interval requested for interpolation range". -/
  | invalid_interpolation_range
  /-- Message "target density range outside provided sample points". -/
  | target_range_outside_samples
  /-- Message "eos_thermal: uninitialized use" (`nope()`). -/
  | uninitialized_use
  /-- Message "eos_thermal called on invalid matter state" (`invalid()`). -/
  | invalid_state
  /-- Message "specific energy range for invalid density requested". -/
  | range_eps_invalid_rho
  /-- Message "specific energy range for invalid electron fraction
  requested". -/
  | range_eps_invalid_ye
  /-- Message "temperature range for invalid density requested". -/
  | range_temp_invalid_rho
  /-- Message "temperature range for invalid electron fraction requested". -/
  | range_temp_invalid_ye
  /-- Failure of `assert(p >= 0)`. -/
  | assert_press_nonneg
  /-- Failure of `assert(cs < 1.0)`. -/
  | assert_csnd_lt_one
  /-- Failure of `assert(cs >= 0)`. -/
  | assert_csnd_nonneg
  /-- Failure of `assert(temp >= 0)`. -/
  | assert_temp_nonneg
  /-- Failure of `assert(eps >= -1)`. -/
  | assert_eps_ge_minus_one
  /-- Failure of `assert(h0>0)`. -/
  | assert_h0_positive
deriving DecidableEq, Repr

/-- Modelled from the spec: `interval<real_t>` of `intervals.h` (absent), a
closed numeric range `(min, max)`. -/
structure interval where
  min : real_t
  max : real_t
deriving DecidableEq, Repr

/-- Alias `range` used by the EOS classes. -/
abbrev range := interval

/-- Modelled from the spec: `make(min, max)` of `intervals.h` (absent) fails if
`min > max`; this is the two-argument constructor `interval{min, max}`. -/
def interval.make (lo hi : real_t) : Except Error interval :=
  if lo > hi then .error .invalid_interval else .ok ⟨lo, hi⟩

/-- Modelled from the spec: `contains(x)` of `intervals.h` (absent), membership
in the closed range. -/
def interval.contains (r : interval) (x : real_t) : Prop :=
  r.min ≤ x ∧ x ≤ r.max

instance (r : interval) (x : real_t) : Decidable (r.contains x) := by
  unfold interval.contains; infer_instance

/-- Modelled from the spec: `intersect(a, b)` of `intervals.h` (absent) yields
`[max(mins), min(maxs)]`; non-emptiness is left to the caller. -/
def intersect (a b : interval) : interval :=
  ⟨Max.max a.min b.min, Min.min a.max b.max⟩

/-- Five-argument form of `intersect`, folded left to right. -/
def intersect5 (a b c d e : interval) : interval :=
  intersect (intersect (intersect (intersect a b) c) d) e

/-- Modelled from the spec: a fitted spline of the monotone spline engine
(`interpol_logspl_impl`, `interpol_llogspl_impl`, absent): its evaluation
function `operator()`, its domain `range_x()` and its value range
`range_y()`.  Evaluation is a total function here; outside `range_x` its
value is whatever the engine returns and no property of it is assumed. -/
structure spline_t where
  eval : real_t → real_t
  range_x : interval
  range_y : interval

/-- Log-x spline alias. -/
abbrev lgspl_t := spline_t
/-- Log-log spline alias. -/
abbrev lglgspl_t := spline_t
/-- Optional spline (`boost::optional<lgspl_t>`). -/
abbrev opt_t := Option lgspl_t

/-- Modelled from the spec: `contains(x)` of a spline (absent) tests membership
in its domain `range_x()`. -/
def spline_t.contains (s : spline_t) (x : real_t) : Prop :=
  s.range_x.contains x

instance (s : spline_t) (x : real_t) : Decidable (s.contains x) := by
  unfold spline_t.contains; infer_instance

/-- The guard `!o || o->contains(x)` on an optional spline. -/
def opt_contains : opt_t → real_t → Prop
  | none, _ => True
  | some s, x => s.contains x

instance (o : opt_t) (x : real_t) : Decidable (opt_contains o x) := by
  cases o <;> unfold opt_contains <;> infer_instance

/-- Modelled from the spec: the polytropic crust `eos_barotr_gpoly` (absent),
given by the analytic functions and the ranges the spline EOS queries. -/
structure eos_barotr_gpoly where
  gm1_from_rho : real_t → real_t
  eps : real_t → real_t
  press : real_t → real_t
  rho : real_t → real_t
  hm1 : real_t → real_t
  csnd : real_t → real_t
  range_gm1 : interval
  range_rho : interval

/-- Data members of `eos_barotr_spline`. -/
structure eos_barotr_spline where
  gm1_rho : lglgspl_t
  eps_gm1 : lgspl_t
  p_gm1 : lglgspl_t
  hm1_gm1 : lgspl_t
  rho_gm1 : lglgspl_t
  csnd_gm1 : lgspl_t
  temp_gm1 : opt_t
  efrac_gm1 : opt_t
  poly : eos_barotr_gpoly
  rggm1 : range
  rgrho : range
  gm1_low : real_t
  rho_low : real_t
  min_h : real_t
  isentropic : Bool
  temp0 : real_t
  zerotemp : Bool
  efrac0 : real_t

/-- In-class default initialisers of `temp0`, `zerotemp`, `efrac0`
(declared in `eos_barotr_spline_impl.h`, absent): the values these members
hold when the constructor body does not assign them. -/
structure member_defaults where
  temp0 : real_t
  zerotemp : Bool
  efrac0 : real_t

/-- Constructor arguments of `eos_barotr_spline`, in declaration order. -/
structure ctor_args where
  gm1_rho_ : lglgspl_t
  rho_gm1_ : lglgspl_t
  eps_gm1_ : lgspl_t
  p_gm1_ : lglgspl_t
  hm1_gm1_ : lgspl_t
  csnd_gm1_ : lgspl_t
  temp_gm1_ : opt_t
  efrac_gm1_ : opt_t
  isentropic_ : Bool
  poly_ : eos_barotr_gpoly

/-- Function `eos_barotr_spline::get_rggm1`: intersect the gm1-axis domains, then
return `{0, rg.max()}`. -/
def get_rggm1 (_gm1_rho : lglgspl_t) (eps_gm1 : lgspl_t) (p_gm1 : lglgspl_t)
    (hm1_gm1 : lgspl_t) (rho_gm1 : lglgspl_t) (csnd_gm1 : lgspl_t)
    (temp_gm1 efrac_gm1 : opt_t) : Except Error range :=
  let rg := intersect5 eps_gm1.range_x p_gm1.range_x hm1_gm1.range_x
              rho_gm1.range_x csnd_gm1.range_x
  let rg := match temp_gm1 with
    | some t => intersect rg t.range_x
    | none => rg
  let rg := match efrac_gm1 with
    | some e => intersect rg e.range_x
    | none => rg
  interval.make 0 rg.max

/-- Member-initialiser list of the constructor: every member as it stands
when the constructor body is entered. -/
def init_members (d : member_defaults) (a : ctor_args) :
    Except Error eos_barotr_spline :=
  match get_rggm1 a.gm1_rho_ a.eps_gm1_ a.p_gm1_ a.hm1_gm1_ a.rho_gm1_
          a.csnd_gm1_ a.temp_gm1_ a.efrac_gm1_ with
  | .error e => .error e
  | .ok rggm1 =>
    match interval.make 0 (a.rho_gm1_.eval rggm1.max) with
    | .error e => .error e
    | .ok rgrho =>
      .ok { gm1_rho := a.gm1_rho_
            eps_gm1 := a.eps_gm1_
            p_gm1 := a.p_gm1_
            hm1_gm1 := a.hm1_gm1_
            rho_gm1 := a.rho_gm1_
            csnd_gm1 := a.csnd_gm1_
            temp_gm1 := a.temp_gm1_
            efrac_gm1 := a.efrac_gm1_
            poly := a.poly_
            rggm1 := rggm1
            rgrho := rgrho
            gm1_low := a.poly_.range_gm1.max
            rho_low := a.poly_.range_rho.max
            min_h := 1 + Min.min (a.poly_.hm1 0) a.hm1_gm1_.range_y.min
            isentropic := a.isentropic_
            temp0 := d.temp0
            zerotemp := d.zerotemp
            efrac0 := d.efrac0 }

/-- The first guard of the constructor body: `gm1_low` lies in the domain of
every gm1-axis spline. -/
def gm1_low_contained (m : eos_barotr_spline) : Prop :=
  m.eps_gm1.contains m.gm1_low ∧
  m.p_gm1.contains m.gm1_low ∧
  m.rho_gm1.contains m.gm1_low ∧
  m.csnd_gm1.contains m.gm1_low ∧
  m.hm1_gm1.contains m.gm1_low ∧
  opt_contains m.temp_gm1 m.gm1_low ∧
  opt_contains m.efrac_gm1 m.gm1_low

instance (m : eos_barotr_spline) : Decidable (gm1_low_contained m) := by
  unfold gm1_low_contained; infer_instance

/-- The block `if (temp_gm1) { ... }` of the constructor body: store
`temp0`, reject a negative temperature, then set `zerotemp`. -/
def temp_block (m : eos_barotr_spline) : Except Error eos_barotr_spline :=
  match m.temp_gm1 with
  | some t =>
    let m1 := { m with temp0 := t.eval m.rggm1.min }
    if t.range_y.min < 0 then .error .negative_temperature
    else .ok { m1 with zerotemp := decide (t.range_y.max = 0) }
  | none => .ok m

/-- The guard `if (zerotemp && !isentropic) throw ...`. -/
def zerotemp_guard (m : eos_barotr_spline) : Except Error eos_barotr_spline :=
  if m.zerotemp = true ∧ m.isentropic = false then
    .error .zerotemp_not_isentropic
  else .ok m

/-- The block `if (efrac_gm1) { efrac0 = (*efrac_gm1)(rggm1.min()); }`. -/
def efrac_block (m : eos_barotr_spline) : eos_barotr_spline :=
  match m.efrac_gm1 with
  | some e => { m with efrac0 := e.eval m.rggm1.min }
  | none => m

/-- Tail of the constructor body: temperature block, zero-temperature guard,
electron-fraction block. -/
def ctor_tail (m : eos_barotr_spline) : Except Error eos_barotr_spline :=
  match temp_block m with
  | .error e => .error e
  | .ok m1 =>
    match zerotemp_guard m1 with
    | .error e => .error e
    | .ok m2 => .ok (efrac_block m2)

/-- Body of the constructor `eos_barotr_spline::eos_barotr_spline`, run on
the initialised members. -/
def ctor_body (m : eos_barotr_spline) : Except Error eos_barotr_spline :=
  if ¬ gm1_low_contained m then .error .matching_outside_gm1
  else if ¬ m.gm1_rho.contains m.rho_low then .error .matching_outside_rho
  else if m.rho_gm1.range_y.min < 0 then .error .negative_density
  else if m.csnd_gm1.range_y.max ≥ 1 then .error .csnd_ge_one
  else if m.csnd_gm1.range_y.min < 0 then .error .csnd_negative
  else if m.p_gm1.range_y.min < 0 then .error .negative_pressure
  else if m.gm1_rho.range_y.min < 0 then .error .g_less_one
  else ctor_tail m

/-- The constructor `eos_barotr_spline::eos_barotr_spline`: member
initialisers, then the body. -/
def eos_barotr_spline.ctor (d : member_defaults) (a : ctor_args) :
    Except Error eos_barotr_spline :=
  match init_members d a with
  | .error e => .error e
  | .ok m => ctor_body m

/-- Method `eos_barotr_spline::gm1_from_rho`. -/
def eos_barotr_spline.gm1_from_rho (s : eos_barotr_spline) (rho : real_t) : real_t :=
  if rho ≥ s.rho_low then s.gm1_rho.eval rho else s.poly.gm1_from_rho rho

/-- Method `eos_barotr_spline::eps`. -/
def eos_barotr_spline.eps (s : eos_barotr_spline) (gm1 : real_t) : real_t :=
  if gm1 ≥ s.gm1_low then s.eps_gm1.eval gm1 else s.poly.eps gm1

/-- Method `eos_barotr_spline::press`. -/
def eos_barotr_spline.press (s : eos_barotr_spline) (gm1 : real_t) : real_t :=
  if gm1 ≥ s.gm1_low then s.p_gm1.eval gm1 else s.poly.press gm1

/-- Method `eos_barotr_spline::rho`. -/
def eos_barotr_spline.rho (s : eos_barotr_spline) (gm1 : real_t) : real_t :=
  if gm1 ≥ s.gm1_low then s.rho_gm1.eval gm1 else s.poly.rho gm1

/-- Method `eos_barotr_spline::hm1`. -/
def eos_barotr_spline.hm1 (s : eos_barotr_spline) (gm1 : real_t) : real_t :=
  if gm1 ≥ s.gm1_low then s.hm1_gm1.eval gm1 else s.poly.hm1 gm1

/-- Method `eos_barotr_spline::csnd`. -/
def eos_barotr_spline.csnd (s : eos_barotr_spline) (gm1 : real_t) : real_t :=
  if gm1 ≥ s.gm1_low then s.csnd_gm1.eval gm1 else s.poly.csnd gm1

/-- Method `eos_barotr_spline::temp`.  The result is `none` where the code
dereferences an empty optional (no defined result). -/
def eos_barotr_spline.temp (s : eos_barotr_spline) (gm1 : real_t) : Option real_t :=
  if s.zerotemp = true then some 0
  else if gm1 ≤ s.gm1_low then some s.temp0
  else match s.temp_gm1 with
    | some t => some (t.eval gm1)
    | none => none

/-- Method `eos_barotr_spline::ye`. -/
def eos_barotr_spline.ye (s : eos_barotr_spline) (gm1 : real_t) : Except Error real_t :=
  match s.efrac_gm1 with
  | none => .error .efrac_not_available
  | some e => .ok (if gm1 ≥ s.gm1_low then e.eval gm1 else s.efrac0)

/-! ## `make_eos_barotr_spline`: join with the crust and gm1 remap -/

/-- The `func_t` arguments of `make_eos_barotr_spline`; an empty
`std::function` is `none`. -/
structure eos_funcs where
  gm1_rho : real_t → real_t
  rho_gm1 : real_t → real_t
  eps_gm1 : real_t → real_t
  press_gm1 : real_t → real_t
  csnd_gm1 : real_t → real_t
  temp_gm1 : Option (real_t → real_t)
  efrac_gm1 : Option (real_t → real_t)

/-- Local `rho_join{ rg_rho.min() }`. -/
def rho_join (rg_rho : interval) : real_t := rg_rho.min

/-- Local `gm1_join{ gm1_rho(rho_join) }`. -/
def gm1_join (f : eos_funcs) (rg_rho : interval) : real_t :=
  f.gm1_rho (rho_join rg_rho)

/-- Local `eps_join{ eps_gm1(gm1_join) }`. -/
def eps_join (f : eos_funcs) (rg_rho : interval) : real_t :=
  f.eps_gm1 (gm1_join f rg_rho)

/-- Local `p_join{ press_gm1(gm1_join) }`. -/
def p_join (f : eos_funcs) (rg_rho : interval) : real_t :=
  f.press_gm1 (gm1_join f rg_rho)

/-- Local `rhomax_poly{ 1.000001 * rho_join }`. -/
def rhomax_poly (rg_rho : interval) : real_t :=
  (1000001 / 1000000) * rho_join rg_rho

/-- Local `gcorr`, for the crust `poly` returned by `from_boundary`. -/
def gcorr (poly : eos_barotr_gpoly) (f : eos_funcs) (rg_rho : interval) : real_t :=
  (poly.gm1_from_rho (rho_join rg_rho) - gm1_join f rg_rho) / (1 + gm1_join f rg_rho)

/-- Lambda `gm1_new`, with the captured `gcorr` as first argument. -/
def gm1_new (gc gm1o : real_t) : real_t :=
  gm1o + gc * (1 + gm1o)

/-- Lambda `gm1_old`, with the captured `gcorr` as first argument. -/
def gm1_old (gc gm1n : real_t) : real_t :=
  gm1n - (gc / (1 + gc)) * (1 + gm1n)

/-- Local `rg_gm1{ gm1_new(gm1_join), gm1_new(gm1_rho(rg_rho.max())) }`. -/
def rg_gm1 (poly : eos_barotr_gpoly) (f : eos_funcs) (rg_rho : interval) :
    Except Error interval :=
  interval.make (gm1_new (gcorr poly f rg_rho) (gm1_join f rg_rho))
    (gm1_new (gcorr poly f rg_rho) (f.gm1_rho rg_rho.max))

/-! ## `make_eos_barotr_spline`: sampling and assembly -/

/-- Modelled from the spec: the unit-system descriptor `units` (absent), used
only for bookkeeping; the embedded code passes it on unread. -/
structure units where
  deriving DecidableEq, Repr

/-- One call `from_function(f, rg, npts)` of the spline engine: the sampled
function, the domain and the number of sample points. -/
structure sample_request where
  f : real_t → real_t
  rg : interval
  npts : ℕ

/-- The parts of the library the builders call that are not embedded.
Modelled from the spec: `from_boundary` builds the crust matched at the join
and may fail; `from_function` of the two spline engines fits a spline to a
sampled function; `make_interpol_pchip_spline` fits an interpolant to two
sample columns; `defaults` are the in-class member defaults of the EOS
object. -/
structure library_env where
  from_boundary : real_t → real_t → real_t → real_t → real_t → units →
    Except Error eos_barotr_gpoly
  logspl_from_function : (real_t → real_t) → interval → ℕ → lgspl_t
  llogspl_from_function : (real_t → real_t) → interval → ℕ → lglgspl_t
  make_interpol_pchip_spline : List real_t → List real_t → spline_t
  defaults : member_defaults

/-- Constant `fac_pts_rho{ 5 }`. -/
def fac_pts_rho : ℕ := 5

/-- Lambda `hm1_gm1`: `eps_gm1(gm1) + press_gm1(gm1) / rho_gm1(gm1)`. -/
def hm1_gm1 (f : eos_funcs) (gm1 : real_t) : real_t :=
  f.eps_gm1 gm1 + f.press_gm1 gm1 / f.rho_gm1 gm1

/-- Integer part of `log10(q)` for `q >= 1` (and `0` below `1`), computed
exactly: the largest `k` with `10^k <= q`. -/
def log10_floor (q : real_t) : ℕ := Nat.log 10 ⌊q⌋₊

/-- Lambda `get_npts`: `lgr = max(1.0, log10(rg.max() / rg.min()))`, then
`pts_per_mag * std::size_t(lgr)`; the conversion to `std::size_t` drops the
fractional part of `lgr`.  Sample counts are embedded as natural numbers. -/
def get_npts (pts_per_mag : ℕ) (rg : interval) : ℕ :=
  pts_per_mag * Max.max 1 (log10_floor (rg.max / rg.min))

/-- Local `npts_gm1{ get_npts(rg_gm1) }`. -/
def npts_gm1 (pts_per_mag : ℕ) (rg : interval) : ℕ := get_npts pts_per_mag rg

/-- Local `npts_rho{ fac_pts_rho * npts_gm1 }`. -/
def npts_rho (pts_per_mag : ℕ) (rg : interval) : ℕ :=
  fac_pts_rho * npts_gm1 pts_per_mag rg

/-- The eight `from_function` calls of `make_eos_barotr_spline`, in source
order; the last two are made only when the function is supplied. -/
structure spline_requests where
  sgm1 : sample_request
  srho : sample_request
  seps : sample_request
  shm1 : sample_request
  spress : sample_request
  scsnd : sample_request
  stemp : Option sample_request
  sefrac : Option sample_request

/-- The arguments of the eight `from_function` calls, for the crust `poly`
and the resampling domain `rg` (the local `rg_gm1`). -/
def make_requests (f : eos_funcs) (rg_rho : interval) (poly : eos_barotr_gpoly)
    (rg : interval) (pts_per_mag : ℕ) : spline_requests :=
  let gc := gcorr poly f rg_rho
  { sgm1 := ⟨fun rho => gm1_new gc (f.gm1_rho rho), rg_rho, npts_rho pts_per_mag rg⟩
    srho := ⟨fun gm1 => f.rho_gm1 (gm1_old gc gm1), rg, npts_gm1 pts_per_mag rg⟩
    seps := ⟨fun gm1 => f.eps_gm1 (gm1_old gc gm1), rg, npts_gm1 pts_per_mag rg⟩
    shm1 := ⟨fun gm1 => hm1_gm1 f (gm1_old gc gm1), rg, npts_gm1 pts_per_mag rg⟩
    spress := ⟨fun gm1 => f.press_gm1 (gm1_old gc gm1), rg, npts_gm1 pts_per_mag rg⟩
    scsnd := ⟨fun gm1 => f.csnd_gm1 (gm1_old gc gm1), rg, npts_gm1 pts_per_mag rg⟩
    stemp := match f.temp_gm1 with
      | some t => some ⟨fun gm1 => t (gm1_old gc gm1), rg, npts_gm1 pts_per_mag rg⟩
      | none => none
    sefrac := match f.efrac_gm1 with
      | some y => some ⟨fun gm1 => y (gm1_old gc gm1), rg, npts_gm1 pts_per_mag rg⟩
      | none => none }

/-- The splines the engines return for the eight requests, arranged as the
constructor call `eos_barotr_spline(sgm1, srho, seps, spress, shm1, scsnd,
stemp, sefrac, isentropic, poly)`. -/
def fit_requests (env : library_env) (r : spline_requests) (isentropic : Bool)
    (poly : eos_barotr_gpoly) : ctor_args :=
  { gm1_rho_ := env.llogspl_from_function r.sgm1.f r.sgm1.rg r.sgm1.npts
    rho_gm1_ := env.llogspl_from_function r.srho.f r.srho.rg r.srho.npts
    eps_gm1_ := env.logspl_from_function r.seps.f r.seps.rg r.seps.npts
    p_gm1_ := env.llogspl_from_function r.spress.f r.spress.rg r.spress.npts
    hm1_gm1_ := env.logspl_from_function r.shm1.f r.shm1.rg r.shm1.npts
    csnd_gm1_ := env.logspl_from_function r.scsnd.f r.scsnd.rg r.scsnd.npts
    temp_gm1_ := r.stemp.map fun q => env.logspl_from_function q.f q.rg q.npts
    efrac_gm1_ := r.sefrac.map fun q => env.logspl_from_function q.f q.rg q.npts
    isentropic_ := isentropic
    poly_ := poly }

/-- Function-based builder `make_eos_barotr_spline(gm1_rho, rho_gm1, eps_gm1,
press_gm1, csnd_gm1, temp_gm1, efrac_gm1, isentropic, rg_rho, n_poly, u,
pts_per_mag)`; the result is the object held by the returned handle. -/
def make_eos_barotr_spline (env : library_env) (f : eos_funcs)
    (isentropic : Bool) (rg_rho : interval) (n_poly : real_t) (u : units)
    (pts_per_mag : ℕ) : Except Error eos_barotr_spline :=
  match env.from_boundary (rho_join rg_rho) (eps_join f rg_rho) (p_join f rg_rho)
          n_poly (rhomax_poly rg_rho) u with
  | .error e => .error e
  | .ok poly =>
    match rg_gm1 poly f rg_rho with
    | .error e => .error e
    | .ok rg =>
      if rg.min ≤ 0 then .error .invalid_interpolation_range
      else
        eos_barotr_spline.ctor env.defaults
          (fit_requests env (make_requests f rg_rho poly rg pts_per_mag)
            isentropic poly)

/-- Modelled from the spec: `contains(rg)` of an interpolant (absent) for an
interval argument: the interval lies inside the domain `range_x()`. -/
def spline_t.contains_interval (s : spline_t) (rg : interval) : Prop :=
  s.range_x.min ≤ rg.min ∧ rg.max ≤ s.range_x.max

instance (s : spline_t) (rg : interval) : Decidable (s.contains_interval rg) := by
  unfold spline_t.contains_interval; infer_instance

/-- The `func_t` arguments the column-based builder forms from its
interpolants; an empty temperature (electron-fraction) column leaves the
function empty. -/
def funcs_of_columns (env : library_env)
    (gm1 rho eps press csnd temp efrac : List real_t) : eos_funcs :=
  { gm1_rho := (env.make_interpol_pchip_spline rho gm1).eval
    rho_gm1 := (env.make_interpol_pchip_spline gm1 rho).eval
    eps_gm1 := (env.make_interpol_pchip_spline gm1 eps).eval
    press_gm1 := (env.make_interpol_pchip_spline gm1 press).eval
    csnd_gm1 := (env.make_interpol_pchip_spline gm1 csnd).eval
    temp_gm1 := if temp.isEmpty then none
      else some (env.make_interpol_pchip_spline gm1 temp).eval
    efrac_gm1 := if efrac.isEmpty then none
      else some (env.make_interpol_pchip_spline gm1 efrac).eval }

/-- Column-based builder `make_eos_barotr_spline(gm1, rho, eps, press, csnd,
temp, efrac, isentropic, rg_rho, n_poly, uc, pts_per_mag)`. -/
def make_eos_barotr_spline_columns (env : library_env)
    (gm1 rho eps press csnd temp efrac : List real_t)
    (isentropic : Bool) (rg_rho : interval) (n_poly : real_t) (uc : units)
    (pts_per_mag : ℕ) : Except Error eos_barotr_spline :=
  if ¬ (env.make_interpol_pchip_spline rho gm1).contains_interval rg_rho then
    .error .target_range_outside_samples
  else
    make_eos_barotr_spline env
      (funcs_of_columns env gm1 rho eps press csnd temp efrac)
      isentropic rg_rho n_poly uc pts_per_mag

/-! ## Thermal EOS interface (`eos_thermal.cc`) -/

/-- Modelled from the spec: the implementation interface `eos_thermal_impl`
(declared in `eos_thermal_impl.h`, absent), with the virtual methods that
`eos_thermal_invalid` overrides.  A method either returns a value or
throws. -/
structure eos_thermal_impl where
  therm_from_rho_eps_ye : real_t → real_t → real_t → Except Error real_t
  therm_from_rho_temp_ye : real_t → real_t → real_t → Except Error real_t
  eps : real_t → real_t → real_t → Except Error real_t
  temp : real_t → real_t → real_t → Except Error real_t
  press : real_t → real_t → real_t → Except Error real_t
  csnd : real_t → real_t → real_t → Except Error real_t
  sentr : real_t → real_t → real_t → Except Error real_t
  dpress_drho : real_t → real_t → real_t → Except Error real_t
  dpress_deps : real_t → real_t → real_t → Except Error real_t
  range_rho : Except Error range
  range_ye : Except Error range
  range_eps : real_t → real_t → Except Error range
  range_temp : real_t → real_t → Except Error range
  minimal_h : Except Error real_t

/-- Static `eos_thermal_invalid::nope()`. -/
def nope : Error := .uninitialized_use

/-- Static `eos_thermal_invalid::invalid()`. -/
def invalid : Error := .invalid_state

/-- Class `eos_thermal_invalid`: every method throws, the point methods
`invalid()` and the range methods and `minimal_h` `nope()`. -/
def eos_thermal_invalid : eos_thermal_impl :=
  { therm_from_rho_eps_ye := fun _ _ _ => .error invalid
    therm_from_rho_temp_ye := fun _ _ _ => .error invalid
    eps := fun _ _ _ => .error invalid
    temp := fun _ _ _ => .error invalid
    press := fun _ _ _ => .error invalid
    csnd := fun _ _ _ => .error invalid
    sentr := fun _ _ _ => .error invalid
    dpress_drho := fun _ _ _ => .error invalid
    dpress_deps := fun _ _ _ => .error invalid
    range_rho := .error nope
    range_ye := .error nope
    range_eps := fun _ _ => .error nope
    range_temp := fun _ _ => .error nope
    minimal_h := .error nope }

/-- Static member `eos_thermal_base::pbad`, the shared invalid
implementation. -/
def pbad : eos_thermal_impl := eos_thermal_invalid

/-- Handle `eos_thermal`: a shared pointer to an implementation. -/
structure eos_thermal where
  pimpl : eos_thermal_impl

/-- Modelled from the spec: the default constructor of the handle (absent)
aliases the shared invalid implementation. -/
def eos_thermal.default : eos_thermal := ⟨pbad⟩

/-- Modelled from the spec: accessor `impl()` of the handle (absent), the
implementation behind the handle. -/
def eos_thermal.impl (e : eos_thermal) : eos_thermal_impl := e.pimpl

/-- Modelled from the spec: the state object (`state_base` and `state`,
declared in the absent headers): validity flag, back-reference to the
implementation, density, thermal variable and composition. -/
structure state where
  ok : Bool
  p : eos_thermal_impl
  rho_ : real_t
  therm_ : real_t
  ye_ : real_t

/-- Modelled from the spec: the default-constructed state `{}` (absent), flagged
invalid. -/
def state.invalid_default : state := ⟨false, pbad, 0, 0, 0⟩

/-- Modelled from the spec: `valid()` of a state (absent) reads the validity
flag. -/
def state.valid (st : state) : Bool := st.ok

/-- Modelled from the spec: `eos()` of a state (absent), the implementation
the state refers to. -/
def state.eos (st : state) : eos_thermal_impl := st.p

/-- Method `eos_thermal_base::state_base::rho`. -/
def state.rho (st : state) : Except Error real_t :=
  if st.valid = false then .error invalid else .ok st.rho_

/-- Method `eos_thermal_base::state_base::ye`. -/
def state.ye (st : state) : Except Error real_t :=
  if st.valid = false then .error invalid else .ok st.ye_

/-- Modelled from the spec: accessor `therm()` of a state (absent); like every
accessor it fails on an invalid state. -/
def state.therm (st : state) : Except Error real_t :=
  if st.valid = false then .error invalid else .ok st.therm_

/-- The argument list `(rho(), therm(), ye())` of the derived-quantity
accessors. -/
def state.args (st : state) : Except Error (real_t × real_t × real_t) :=
  match st.rho with
  | .error e => .error e
  | .ok r =>
    match st.therm with
    | .error e => .error e
    | .ok th =>
      match st.ye with
      | .error e => .error e
      | .ok y => .ok (r, th, y)

/-- Method `eos_thermal::state::press`; the flag `asserts` is false when
assertions are compiled out. -/
def state.press (asserts : Bool) (st : state) : Except Error real_t :=
  match st.args with
  | .error e => .error e
  | .ok (r, th, y) =>
    match st.eos.press r th y with
    | .error e => .error e
    | .ok p =>
      if asserts = true ∧ ¬ (p ≥ 0) then .error .assert_press_nonneg
      else .ok p

/-- Method `eos_thermal::state::csnd`. -/
def state.csnd (asserts : Bool) (st : state) : Except Error real_t :=
  match st.args with
  | .error e => .error e
  | .ok (r, th, y) =>
    match st.eos.csnd r th y with
    | .error e => .error e
    | .ok cs =>
      if asserts = true ∧ ¬ (cs < 1) then .error .assert_csnd_lt_one
      else if asserts = true ∧ ¬ (cs ≥ 0) then .error .assert_csnd_nonneg
      else .ok cs

/-- Method `eos_thermal::state::temp`. -/
def state.temp (asserts : Bool) (st : state) : Except Error real_t :=
  match st.args with
  | .error e => .error e
  | .ok (r, th, y) =>
    match st.eos.temp r th y with
    | .error e => .error e
    | .ok temp =>
      if asserts = true ∧ ¬ (temp ≥ 0) then .error .assert_temp_nonneg
      else .ok temp

/-- Method `eos_thermal::state::eps`. -/
def state.eps (asserts : Bool) (st : state) : Except Error real_t :=
  match st.args with
  | .error e => .error e
  | .ok (r, th, y) =>
    match st.eos.eps r th y with
    | .error e => .error e
    | .ok eps =>
      if asserts = true ∧ ¬ (eps ≥ -1) then .error .assert_eps_ge_minus_one
      else .ok eps

/-- Method `eos_thermal::state::sentr`. -/
def state.sentr (st : state) : Except Error real_t :=
  match st.args with
  | .error e => .error e
  | .ok (r, th, y) => st.eos.sentr r th y

/-- Method `eos_thermal::state::dpress_drho`. -/
def state.dpress_drho (st : state) : Except Error real_t :=
  match st.args with
  | .error e => .error e
  | .ok (r, th, y) => st.eos.dpress_drho r th y

/-- Method `eos_thermal::state::dpress_deps`. -/
def state.dpress_deps (st : state) : Except Error real_t :=
  match st.args with
  | .error e => .error e
  | .ok (r, th, y) => st.eos.dpress_deps r th y

/-- Method `eos_thermal::range_rho`. -/
def eos_thermal.range_rho (e : eos_thermal) : Except Error range :=
  e.impl.range_rho

/-- Method `eos_thermal::range_ye`. -/
def eos_thermal.range_ye (e : eos_thermal) : Except Error range :=
  e.impl.range_ye

/-- Method `eos_thermal::is_rho_valid`. -/
def eos_thermal.is_rho_valid (e : eos_thermal) (rho : real_t) : Except Error Bool :=
  match e.range_rho with
  | .error err => .error err
  | .ok r => .ok (decide (r.contains rho))

/-- Method `eos_thermal::is_ye_valid`. -/
def eos_thermal.is_ye_valid (e : eos_thermal) (ye : real_t) : Except Error Bool :=
  match e.range_ye with
  | .error err => .error err
  | .ok r => .ok (decide (r.contains ye))

/-- Method `eos_thermal::is_rho_ye_valid`; `&&` evaluates its right operand
only when the left one is true. -/
def eos_thermal.is_rho_ye_valid (e : eos_thermal) (rho ye : real_t) :
    Except Error Bool :=
  match e.impl.range_rho with
  | .error err => .error err
  | .ok rr =>
    if rr.contains rho then
      match e.impl.range_ye with
      | .error err => .error err
      | .ok ry => .ok (decide (ry.contains ye))
    else .ok false

/-- Method `eos_thermal::is_rho_eps_ye_valid`. -/
def eos_thermal.is_rho_eps_ye_valid (e : eos_thermal) (rho eps ye : real_t) :
    Except Error Bool :=
  match e.is_rho_ye_valid rho ye with
  | .error err => .error err
  | .ok false => .ok false
  | .ok true =>
    match e.impl.range_eps rho ye with
    | .error err => .error err
    | .ok re => .ok (decide (re.contains eps))

/-- Method `eos_thermal::is_rho_temp_ye_valid`. -/
def eos_thermal.is_rho_temp_ye_valid (e : eos_thermal) (rho temp ye : real_t) :
    Except Error Bool :=
  match e.is_rho_ye_valid rho ye with
  | .error err => .error err
  | .ok false => .ok false
  | .ok true =>
    match e.impl.range_temp rho ye with
    | .error err => .error err
    | .ok rt => .ok (decide (rt.contains temp))

/-- Method `eos_thermal::at_rho_eps_ye`. -/
def eos_thermal.at_rho_eps_ye (e : eos_thermal) (rho eps ye : real_t) :
    Except Error state :=
  match e.is_rho_eps_ye_valid rho eps ye with
  | .error err => .error err
  | .ok false => .ok state.invalid_default
  | .ok true =>
    match e.impl.therm_from_rho_eps_ye rho eps ye with
    | .error err => .error err
    | .ok th => .ok ⟨true, e.impl, rho, th, ye⟩

/-- Method `eos_thermal::at_rho_temp_ye`. -/
def eos_thermal.at_rho_temp_ye (e : eos_thermal) (rho temp ye : real_t) :
    Except Error state :=
  match e.is_rho_temp_ye_valid rho temp ye with
  | .error err => .error err
  | .ok false => .ok state.invalid_default
  | .ok true =>
    match e.impl.therm_from_rho_temp_ye rho temp ye with
    | .error err => .error err
    | .ok th => .ok ⟨true, e.impl, rho, th, ye⟩

/-- Method `eos_thermal::range_eps`. -/
def eos_thermal.range_eps (e : eos_thermal) (rho ye : real_t) : Except Error range :=
  match e.is_rho_valid rho with
  | .error err => .error err
  | .ok false => .error .range_eps_invalid_rho
  | .ok true =>
    match e.is_ye_valid ye with
    | .error err => .error err
    | .ok false => .error .range_eps_invalid_ye
    | .ok true => e.impl.range_eps rho ye

/-- Method `eos_thermal::range_temp`. -/
def eos_thermal.range_temp (e : eos_thermal) (rho ye : real_t) : Except Error range :=
  match e.is_rho_valid rho with
  | .error err => .error err
  | .ok false => .error .range_temp_invalid_rho
  | .ok true =>
    match e.is_ye_valid ye with
    | .error err => .error err
    | .ok false => .error .range_temp_invalid_ye
    | .ok true => e.impl.range_temp rho ye

/-- Method `eos_thermal::minimal_h`. -/
def eos_thermal.minimal_h (asserts : Bool) (e : eos_thermal) : Except Error real_t :=
  match e.impl.minimal_h with
  | .error err => .error err
  | .ok h0 =>
    if asserts = true ∧ ¬ (h0 > 0) then .error .assert_h0_positive else .ok h0

/-! ## Thermal EOS interface: calls made on the implementation -/

/-- A call of the handle on its implementation, with the arguments
passed. -/
inductive impl_call where
  | range_rho
  | range_ye
  | range_eps (rho ye : real_t)
  | range_temp (rho ye : real_t)
  | therm_from_rho_eps_ye (rho eps ye : real_t)
  | therm_from_rho_temp_ye (rho temp ye : real_t)
deriving DecidableEq, Repr

/-- Method `eos_thermal::is_rho_valid`, with the implementation calls it
makes in order. -/
def eos_thermal.is_rho_valid_log (e : eos_thermal) (rho : real_t) :
    Except Error Bool × List impl_call :=
  match e.impl.range_rho with
  | .error err => (.error err, [.range_rho])
  | .ok r => (.ok (decide (r.contains rho)), [.range_rho])

/-- Method `eos_thermal::is_ye_valid`, with the implementation calls it
makes in order. -/
def eos_thermal.is_ye_valid_log (e : eos_thermal) (ye : real_t) :
    Except Error Bool × List impl_call :=
  match e.impl.range_ye with
  | .error err => (.error err, [.range_ye])
  | .ok r => (.ok (decide (r.contains ye)), [.range_ye])

/-- Method `eos_thermal::is_rho_ye_valid`, with the implementation calls it
makes in order. -/
def eos_thermal.is_rho_ye_valid_log (e : eos_thermal) (rho ye : real_t) :
    Except Error Bool × List impl_call :=
  match e.impl.range_rho with
  | .error err => (.error err, [.range_rho])
  | .ok rr =>
    if rr.contains rho then
      match e.impl.range_ye with
      | .error err => (.error err, [.range_rho, .range_ye])
      | .ok ry => (.ok (decide (ry.contains ye)), [.range_rho, .range_ye])
    else (.ok false, [.range_rho])

/-- Method `eos_thermal::is_rho_eps_ye_valid`, with the implementation
calls it makes in order. -/
def eos_thermal.is_rho_eps_ye_valid_log (e : eos_thermal) (rho eps ye : real_t) :
    Except Error Bool × List impl_call :=
  match e.is_rho_ye_valid_log rho ye with
  | (.error err, l) => (.error err, l)
  | (.ok false, l) => (.ok false, l)
  | (.ok true, l) =>
    match e.impl.range_eps rho ye with
    | .error err => (.error err, l ++ [.range_eps rho ye])
    | .ok re => (.ok (decide (re.contains eps)), l ++ [.range_eps rho ye])

/-- Method `eos_thermal::is_rho_temp_ye_valid`, with the implementation
calls it makes in order. -/
def eos_thermal.is_rho_temp_ye_valid_log (e : eos_thermal) (rho temp ye : real_t) :
    Except Error Bool × List impl_call :=
  match e.is_rho_ye_valid_log rho ye with
  | (.error err, l) => (.error err, l)
  | (.ok false, l) => (.ok false, l)
  | (.ok true, l) =>
    match e.impl.range_temp rho ye with
    | .error err => (.error err, l ++ [.range_temp rho ye])
    | .ok rt => (.ok (decide (rt.contains temp)), l ++ [.range_temp rho ye])

/-- Method `eos_thermal::at_rho_eps_ye`, with the implementation calls it
makes in order. -/
def eos_thermal.at_rho_eps_ye_log (e : eos_thermal) (rho eps ye : real_t) :
    Except Error state × List impl_call :=
  match e.is_rho_eps_ye_valid_log rho eps ye with
  | (.error err, l) => (.error err, l)
  | (.ok false, l) => (.ok state.invalid_default, l)
  | (.ok true, l) =>
    match e.impl.therm_from_rho_eps_ye rho eps ye with
    | .error err => (.error err, l ++ [.therm_from_rho_eps_ye rho eps ye])
    | .ok th =>
      (.ok ⟨true, e.impl, rho, th, ye⟩, l ++ [.therm_from_rho_eps_ye rho eps ye])

/-- Method `eos_thermal::at_rho_temp_ye`, with the implementation calls it
makes in order. -/
def eos_thermal.at_rho_temp_ye_log (e : eos_thermal) (rho temp ye : real_t) :
    Except Error state × List impl_call :=
  match e.is_rho_temp_ye_valid_log rho temp ye with
  | (.error err, l) => (.error err, l)
  | (.ok false, l) => (.ok state.invalid_default, l)
  | (.ok true, l) =>
    match e.impl.therm_from_rho_temp_ye rho temp ye with
    | .error err => (.error err, l ++ [.therm_from_rho_temp_ye rho temp ye])
    | .ok th =>
      (.ok ⟨true, e.impl, rho, th, ye⟩, l ++ [.therm_from_rho_temp_ye rho temp ye])

/-- Method `eos_thermal::range_eps`, with the implementation calls it makes
in order. -/
def eos_thermal.range_eps_log (e : eos_thermal) (rho ye : real_t) :
    Except Error range × List impl_call :=
  match e.is_rho_valid_log rho with
  | (.error err, l) => (.error err, l)
  | (.ok false, l) => (.error .range_eps_invalid_rho, l)
  | (.ok true, l) =>
    match e.is_ye_valid_log ye with
    | (.error err, l2) => (.error err, l ++ l2)
    | (.ok false, l2) => (.error .range_eps_invalid_ye, l ++ l2)
    | (.ok true, l2) => (e.impl.range_eps rho ye, l ++ l2 ++ [.range_eps rho ye])

/-- Method `eos_thermal::range_temp`, with the implementation calls it makes
in order. -/
def eos_thermal.range_temp_log (e : eos_thermal) (rho ye : real_t) :
    Except Error range × List impl_call :=
  match e.is_rho_valid_log rho with
  | (.error err, l) => (.error err, l)
  | (.ok false, l) => (.error .range_temp_invalid_rho, l)
  | (.ok true, l) =>
    match e.is_ye_valid_log ye with
    | (.error err, l2) => (.error err, l ++ l2)
    | (.ok false, l2) => (.error .range_temp_invalid_ye, l ++ l2)
    | (.ok true, l2) => (e.impl.range_temp rho ye, l ++ l2 ++ [.range_temp rho ye])

/-! ## Spline evaluations made by the constructor -/

/-- A spline evaluation: the spline and the point at which it is
evaluated. -/
structure spline_eval where
  spline : spline_t
  point : real_t

/-- The evaluation `rho_gm1(rggm1.max())` in the member initialiser of
`rgrho`, made on every run of the constructor that has formed `rggm1`. -/
def init_evals (a : ctor_args) (rggm1 : range) : List spline_eval :=
  [⟨a.rho_gm1_, rggm1.max⟩]

/-- The evaluations `(*temp_gm1)(rggm1.min())` and
`(*efrac_gm1)(rggm1.min())` made by a constructor body that runs to its
end. -/
def body_evals (m : eos_barotr_spline) : List spline_eval :=
  (m.temp_gm1.toList.map fun t => ⟨t, m.rggm1.min⟩)
  ++ (m.efrac_gm1.toList.map fun y => ⟨y, m.rggm1.min⟩)

/-! ## con2prim driver (`minimal.cc`) -/

/-- Constant `K0` of `main`. -/
def K0 : real_t := 0.08950758861673326

/-- Vector `gammas` of `main`. -/
def gammas : List real_t := [1.35692, 3.224, 3.033, 1.325]

/-- Initialiser `rmdp0 = 1/pow(K0, gammas[0]-1)` of `main`, for the
constants `K`, `gamma0` and the library function `pow`. -/
def rmdp0 {R : Type} [DivisionRing R] (pow : R → R → R) (K gamma0 : R) : R :=
  1 / pow K (gamma0 - 1)

/-- The density scale stated by the comment above the constants of `main`:
`rho_P = 1/K**(1/(Gamma-1))`. -/
def rho_P_of_comment {R : Type} [DivisionRing R] (pow : R → R → R)
    (K gamma : R) : R :=
  1 / pow K (1 / (gamma - 1))

/-! ## Proof vocabulary -/

/-- Members the constructor body never assigns agree between `m` and `s`. -/
def same_tables (m s : eos_barotr_spline) : Prop :=
  s.gm1_rho = m.gm1_rho ∧ s.eps_gm1 = m.eps_gm1 ∧ s.p_gm1 = m.p_gm1 ∧
  s.hm1_gm1 = m.hm1_gm1 ∧ s.rho_gm1 = m.rho_gm1 ∧ s.csnd_gm1 = m.csnd_gm1 ∧
  s.temp_gm1 = m.temp_gm1 ∧ s.efrac_gm1 = m.efrac_gm1 ∧ s.poly = m.poly ∧
  s.rggm1 = m.rggm1 ∧ s.rgrho = m.rgrho ∧ s.gm1_low = m.gm1_low ∧
  s.rho_low = m.rho_low ∧ s.min_h = m.min_h ∧ s.isentropic = m.isentropic

/-- Members set by the initialiser list, read off the constructor
arguments. -/
def members_of_args (a : ctor_args) (m : eos_barotr_spline) : Prop :=
  m.gm1_rho = a.gm1_rho_ ∧ m.eps_gm1 = a.eps_gm1_ ∧ m.p_gm1 = a.p_gm1_ ∧
  m.hm1_gm1 = a.hm1_gm1_ ∧ m.rho_gm1 = a.rho_gm1_ ∧ m.csnd_gm1 = a.csnd_gm1_ ∧
  m.temp_gm1 = a.temp_gm1_ ∧ m.efrac_gm1 = a.efrac_gm1_ ∧ m.poly = a.poly_ ∧
  m.gm1_low = a.poly_.range_gm1.max ∧ m.rho_low = a.poly_.range_rho.max ∧
  m.isentropic = a.isentropic_ ∧ m.rggm1.min = 0

/-- The first guard of the constructor body, read on the arguments: the
crust's upper gm1 bound lies in the domain of every gm1-axis spline. -/
def gm1_low_in_domains (a : ctor_args) : Prop :=
  a.eps_gm1_.contains a.poly_.range_gm1.max ∧
  a.p_gm1_.contains a.poly_.range_gm1.max ∧
  a.rho_gm1_.contains a.poly_.range_gm1.max ∧
  a.csnd_gm1_.contains a.poly_.range_gm1.max ∧
  a.hm1_gm1_.contains a.poly_.range_gm1.max ∧
  opt_contains a.temp_gm1_ a.poly_.range_gm1.max ∧
  opt_contains a.efrac_gm1_ a.poly_.range_gm1.max

/-- The second guard, read on the arguments: the crust's upper density
bound lies in the domain of the gm1-of-rho spline. -/
def rho_low_in_domain (a : ctor_args) : Prop :=
  a.gm1_rho_.contains a.poly_.range_rho.max

/-- The four physical conditions on the value ranges of the splines. -/
def value_ranges_physical (a : ctor_args) : Prop :=
  0 ≤ a.rho_gm1_.range_y.min ∧
  (0 ≤ a.csnd_gm1_.range_y.min ∧ a.csnd_gm1_.range_y.max < 1) ∧
  0 ≤ a.p_gm1_.range_y.min ∧
  0 ≤ a.gm1_rho_.range_y.min

/-- The domains of the supplied gm1-axis splines, in the order in which
`get_rggm1` intersects them: eps, press, hm1, rho, csnd, then temperature
and electron fraction when present. -/
def gm1_axis_domains (a : ctor_args) : List interval :=
  [a.eps_gm1_.range_x, a.p_gm1_.range_x, a.hm1_gm1_.range_x,
   a.rho_gm1_.range_x, a.csnd_gm1_.range_x]
  ++ (a.temp_gm1_.toList.map fun t => t.range_x)
  ++ (a.efrac_gm1_.toList.map fun y => y.range_x)

/-- The spec's wording of the stored gm1 domain: the intersection of all
supplied spline domains, `[max(mins), min(maxs)]`. -/
def domains_intersection (a : ctor_args) : interval :=
  (gm1_axis_domains a).tail.foldl intersect a.eps_gm1_.range_x

/-- Modelled from the spec: a spline that is nondecreasing on its domain (the
engine, absent, preserves the monotonicity of monotone samples). -/
def spline_t.nondecreasing (s : spline_t) : Prop :=
  ∀ x y, s.contains x → s.contains y → x ≤ y → s.eval x ≤ s.eval y

/-- Modelled from the spec: density and pressure of the polytropic crust
`eos_barotr_gpoly` (absent) are nondecreasing functions of gm1 from zero up
to the crust's upper gm1 bound. -/
def eos_barotr_gpoly.nondecreasing (p : eos_barotr_gpoly) : Prop :=
  ∀ x y, 0 ≤ x → x ≤ y → y ≤ p.range_gm1.max →
    p.rho x ≤ p.rho y ∧ p.press x ≤ p.press y

/-- At the join threshold the crust's density and pressure do not exceed
the spline values. -/
def join_ordered (a : ctor_args) : Prop :=
  a.poly_.rho a.poly_.range_gm1.max ≤ a.rho_gm1_.eval a.poly_.range_gm1.max ∧
  a.poly_.press a.poly_.range_gm1.max ≤ a.p_gm1_.eval a.poly_.range_gm1.max

/-- The engine's evaluation precondition for one evaluation: the point lies
in the spline's domain. -/
def spline_eval.inside (v : spline_eval) : Prop := v.spline.contains v.point

/-- The calls on the implementation that are made at an admissible point:
`range_eps` / `range_temp` with `rho` in `range_rho()` and `ye` in
`range_ye()`, the two conversions with, in addition, `eps` (`temp`) inside
the range the implementation returns there. -/
def call_admissible (e : eos_thermal) : impl_call → Prop
  | .range_rho => True
  | .range_ye => True
  | .range_eps rho ye =>
    ∃ rr ry, e.impl.range_rho = .ok rr ∧ e.impl.range_ye = .ok ry ∧
      rr.contains rho ∧ ry.contains ye
  | .range_temp rho ye =>
    ∃ rr ry, e.impl.range_rho = .ok rr ∧ e.impl.range_ye = .ok ry ∧
      rr.contains rho ∧ ry.contains ye
  | .therm_from_rho_eps_ye rho eps ye =>
    ∃ rr ry re, e.impl.range_rho = .ok rr ∧ e.impl.range_ye = .ok ry ∧
      e.impl.range_eps rho ye = .ok re ∧
      rr.contains rho ∧ ry.contains ye ∧ re.contains eps
  | .therm_from_rho_temp_ye rho temp ye =>
    ∃ rr ry rt, e.impl.range_rho = .ok rr ∧ e.impl.range_ye = .ok ry ∧
      e.impl.range_temp rho ye = .ok rt ∧
      rr.contains rho ∧ ry.contains ye ∧ rt.contains temp

/-! ## Concrete tables -/

/-- Sample spline: identity on the domain `[1/2, 4]`, value at the nearest
end of the domain outside it. -/
def ex_id : spline_t :=
  ⟨fun x => Max.max (1 / 2) (Min.min x 4), ⟨1 / 2, 4⟩, ⟨1 / 2, 4⟩⟩

/-- Sample sound-speed spline: `x / 8` on the domain `[1/2, 4]`. -/
def ex_csnd : spline_t :=
  ⟨fun x => Max.max (1 / 2) (Min.min x 4) / 8, ⟨1 / 2, 4⟩, ⟨1 / 16, 1 / 2⟩⟩

/-- Sample crust, valid for gm1 and rho in `[0, 1]`. -/
def ex_poly : eos_barotr_gpoly :=
  { gm1_from_rho := fun r => r
    eps := fun g => g / 2
    press := fun g => g / 2
    rho := fun g => g
    hm1 := fun g => g
    csnd := fun g => g / 8
    range_gm1 := ⟨0, 1⟩
    range_rho := ⟨0, 1⟩ }

/-- Sample default member values. -/
def ex_defaults : member_defaults := ⟨0, true, 0⟩

/-- Sample constructor arguments: seven tables on `[1/2, 4]`, temperature
and electron fraction present, not isentropic. -/
def ex_args : ctor_args :=
  { gm1_rho_ := ex_id, rho_gm1_ := ex_id, eps_gm1_ := ex_id, p_gm1_ := ex_id
    hm1_gm1_ := ex_id, csnd_gm1_ := ex_csnd
    temp_gm1_ := some ex_id, efrac_gm1_ := some ex_id
    isentropic_ := false, poly_ := ex_poly }

/-- The object the constructor builds from `ex_args`. -/
def ex_eos : eos_barotr_spline :=
  { gm1_rho := ex_id, eps_gm1 := ex_id, p_gm1 := ex_id, hm1_gm1 := ex_id
    rho_gm1 := ex_id, csnd_gm1 := ex_csnd
    temp_gm1 := some ex_id, efrac_gm1 := some ex_id
    poly := ex_poly, rggm1 := ⟨0, 4⟩, rgrho := ⟨0, 4⟩
    gm1_low := 1, rho_low := 1, min_h := 1
    isentropic := false, temp0 := 1 / 2, zerotemp := false, efrac0 := 1 / 2 }

/-- Sample crust whose upper gm1 bound `5` lies outside the sample tables. -/
def ex_poly_gm1_far : eos_barotr_gpoly := { ex_poly with range_gm1 := ⟨0, 5⟩ }

/-- Sample crust whose upper density bound `5` lies outside the sample
gm1-of-rho table. -/
def ex_poly_rho_far : eos_barotr_gpoly := { ex_poly with range_rho := ⟨0, 5⟩ }

/-- Sample sound-speed spline whose value range reaches exactly `1`. -/
def ex_csnd_one : spline_t :=
  ⟨fun x => Max.max (1 / 2) (Min.min x 4) / 4, ⟨1 / 2, 4⟩, ⟨1 / 8, 1⟩⟩

/-- Sample zero-temperature spline on `[1/2, 4]`. -/
def ex_zero : spline_t := ⟨fun _ => 0, ⟨1 / 2, 4⟩, ⟨0, 0⟩⟩

/-- Sample arguments with the zero-temperature spline, isentropic. -/
def ex_args_zero_isen : ctor_args :=
  { ex_args with temp_gm1_ := some ex_zero, isentropic_ := true }

/-- The object the constructor builds from `ex_args_zero_isen`. -/
def ex_eos_zero : eos_barotr_spline :=
  { ex_eos with temp_gm1 := some ex_zero, isentropic := true
                temp0 := 0, zerotemp := true }

/-- Sample arguments without an electron-fraction spline. -/
def ex_args_noye : ctor_args := { ex_args with efrac_gm1_ := none }

/-- The object the constructor builds from `ex_args_noye`. -/
def ex_eos_noye : eos_barotr_spline :=
  { ex_eos with efrac_gm1 := none, efrac0 := 0 }

/-- Sample user functions for `make_eos_barotr_spline`. -/
def ex_funcs : eos_funcs :=
  { gm1_rho := fun r => 2 * r
    rho_gm1 := fun g => g / 2
    eps_gm1 := fun g => g / 2
    press_gm1 := fun g => g / 4
    csnd_gm1 := fun g => g / 8
    temp_gm1 := none
    efrac_gm1 := none }

/-- Sample crust for the join: its gm1 at density `r` is `3 r`. -/
def ex_poly_join : eos_barotr_gpoly :=
  { ex_poly with gm1_from_rho := fun r => 3 * r }

/-- Sample library environment: the crust factory returns `ex_poly_join`,
the engines return the sampled function on the requested domain, the
column interpolant is the identity on the span of its first column. -/
def ex_env : library_env :=
  { from_boundary := fun _ _ _ _ _ _ => .ok ex_poly_join
    logspl_from_function := fun f rg _ => ⟨f, rg, ⟨0, 0⟩⟩
    llogspl_from_function := fun f rg _ => ⟨f, rg, ⟨0, 0⟩⟩
    make_interpol_pchip_spline := fun xs _ =>
      ⟨fun x => x, ⟨xs.head?.getD 0, xs.getLast?.getD 0⟩, ⟨0, 0⟩⟩
    defaults := ex_defaults }

/-- Sample thermal implementation: density in `[0, 10]`, composition in
`[0, 1]`, specific energy in `[0, 5]`, temperature in `[0, 50]`; the thermal
variable is the specific energy; the pressure `rho * th - 1` becomes
negative at low density. -/
def ex_thermal_impl : eos_thermal_impl :=
  { therm_from_rho_eps_ye := fun _ eps _ => .ok eps
    therm_from_rho_temp_ye := fun _ temp _ => .ok (temp / 10)
    eps := fun _ th _ => .ok th
    temp := fun _ th _ => .ok (10 * th)
    press := fun rho th _ => .ok (rho * th - 1)
    csnd := fun _ _ _ => .ok (1 / 2)
    sentr := fun _ th _ => .ok th
    dpress_drho := fun _ th _ => .ok th
    dpress_deps := fun rho _ _ => .ok rho
    range_rho := .ok ⟨0, 10⟩
    range_ye := .ok ⟨0, 1⟩
    range_eps := fun _ _ => .ok ⟨0, 5⟩
    range_temp := fun _ _ => .ok ⟨0, 50⟩
    minimal_h := .ok 1 }

/-- Sample handle over `ex_thermal_impl`. -/
def ex_thermal : eos_thermal := ⟨ex_thermal_impl⟩

/-- Sample density spline `x / 2` on `[1/2, 4]`: increasing, and at the
join `gm1 = 1` it gives `1/2`, below the sample crust's density `1`. -/
def ex_half : spline_t :=
  ⟨fun x => Max.max (1 / 2) (Min.min x 4) / 2, ⟨1 / 2, 4⟩, ⟨1 / 4, 2⟩⟩

/-- Sample arguments with the density spline `ex_half`. -/
def ex_args_step : ctor_args := { ex_args with rho_gm1_ := ex_half }

/-- The object the constructor builds from `ex_args_step`. -/
def ex_eos_step : eos_barotr_spline :=
  { ex_eos with rho_gm1 := ex_half, rgrho := ⟨0, 2⟩ }

theorem interval_make_ok {lo hi : real_t} {r : interval}
    (h : interval.make lo hi = .ok r) : r.min = lo ∧ r.max = hi ∧ lo ≤ hi := by
  unfold interval.make at h
  split_ifs at h with hc
  · cases h
    exact ⟨rfl, rfl, not_lt.mp hc⟩

theorem ex_get_rggm1 :
    get_rggm1 ex_id ex_id ex_id ex_id ex_id ex_csnd (some ex_id) (some ex_id)
      = .ok ⟨0, 4⟩ := by
  simp [get_rggm1, intersect5, intersect, interval.make, ex_id, ex_csnd]

theorem ex_init_ok :
    init_members ex_defaults ex_args
      = .ok { ex_eos with temp0 := 0, zerotemp := true, efrac0 := 0 } := by
  simp only [init_members, ex_args, ex_get_rggm1]
  norm_num [interval.make, ex_id, ex_eos, ex_poly, ex_defaults]

theorem ex_ctor_ok : eos_barotr_spline.ctor ex_defaults ex_args = .ok ex_eos := by
  simp only [eos_barotr_spline.ctor, ex_init_ok]
  norm_num [ctor_body, gm1_low_contained, spline_t.contains, interval.contains,
    opt_contains, ctor_tail, temp_block, zerotemp_guard, efrac_block, ex_eos,
    ex_id, ex_csnd, ex_poly]

theorem get_rggm1_min {g e p h r c : spline_t} {t y : opt_t} {rg : range}
    (hrg : get_rggm1 g e p h r c t y = .ok rg) : rg.min = 0 := by
  unfold get_rggm1 at hrg
  exact (interval_make_ok hrg).1

theorem init_members_ok {d : member_defaults} {a : ctor_args}
    {m : eos_barotr_spline} (h : init_members d a = .ok m) :
    members_of_args a m ∧ m.temp0 = d.temp0 ∧ m.zerotemp = d.zerotemp ∧
    m.efrac0 = d.efrac0 ∧
    get_rggm1 a.gm1_rho_ a.eps_gm1_ a.p_gm1_ a.hm1_gm1_ a.rho_gm1_
      a.csnd_gm1_ a.temp_gm1_ a.efrac_gm1_ = .ok m.rggm1 ∧
    interval.make 0 (a.rho_gm1_.eval m.rggm1.max) = .ok m.rgrho := by
  unfold init_members at h
  split at h
  · cases h
  · rename_i rg hrg
    split at h
    · cases h
    · rename_i rr hrr
      cases h
      refine ⟨⟨rfl, rfl, rfl, rfl, rfl, rfl, rfl, rfl, rfl, rfl, rfl, rfl, ?_⟩,
        rfl, rfl, rfl, hrg, hrr⟩
      exact get_rggm1_min hrg

theorem temp_block_ok {m s : eos_barotr_spline} (h : temp_block m = .ok s) :
    same_tables m s ∧ s.efrac0 = m.efrac0 ∧
    (∀ t, m.temp_gm1 = some t →
      0 ≤ t.range_y.min ∧ s.temp0 = t.eval m.rggm1.min ∧
      s.zerotemp = decide (t.range_y.max = 0)) ∧
    (m.temp_gm1 = none → s.temp0 = m.temp0 ∧ s.zerotemp = m.zerotemp) := by
  unfold temp_block at h
  split at h
  · rename_i t ht
    split_ifs at h with hneg
    cases h
    refine ⟨⟨rfl, rfl, rfl, rfl, rfl, rfl, rfl, rfl, rfl, rfl, rfl, rfl, rfl, rfl, rfl⟩,
      rfl, ?_, ?_⟩
    · intro t2 ht2
      rw [ht] at ht2
      cases ht2
      exact ⟨not_lt.mp hneg, rfl, rfl⟩
    · intro hn
      rw [ht] at hn
      cases hn
  · rename_i hn
    cases h
    refine ⟨⟨rfl, rfl, rfl, rfl, rfl, rfl, rfl, rfl, rfl, rfl, rfl, rfl, rfl, rfl, rfl⟩,
      rfl, ?_, fun _ => ⟨rfl, rfl⟩⟩
    intro t ht
    rw [hn] at ht
    cases ht

theorem zerotemp_guard_ok {m s : eos_barotr_spline} (h : zerotemp_guard m = .ok s) :
    s = m ∧ ¬ (m.zerotemp = true ∧ m.isentropic = false) := by
  unfold zerotemp_guard at h
  split_ifs at h with hc
  cases h
  exact ⟨rfl, hc⟩

theorem efrac_block_frame (m : eos_barotr_spline) :
    same_tables m (efrac_block m) ∧ (efrac_block m).temp0 = m.temp0 ∧
    (efrac_block m).zerotemp = m.zerotemp ∧
    (∀ e, m.efrac_gm1 = some e → (efrac_block m).efrac0 = e.eval m.rggm1.min) ∧
    (m.efrac_gm1 = none → (efrac_block m).efrac0 = m.efrac0) := by
  unfold efrac_block
  split
  · rename_i e he
    refine ⟨⟨rfl, rfl, rfl, rfl, rfl, rfl, rfl, rfl, rfl, rfl, rfl, rfl, rfl, rfl, rfl⟩,
      rfl, rfl, ?_, ?_⟩
    · intro e2 he2
      rw [he] at he2
      cases he2
      rfl
    · intro hn
      rw [he] at hn
      cases hn
  · rename_i hn
    refine ⟨⟨rfl, rfl, rfl, rfl, rfl, rfl, rfl, rfl, rfl, rfl, rfl, rfl, rfl, rfl, rfl⟩,
      rfl, rfl, ?_, fun _ => rfl⟩
    intro e he
    rw [hn] at he
    cases he

theorem same_tables_trans {a b c : eos_barotr_spline}
    (h1 : same_tables a b) (h2 : same_tables b c) : same_tables a c := by
  unfold same_tables at *
  obtain ⟨a1, a2, a3, a4, a5, a6, a7, a8, a9, a10, a11, a12, a13, a14, a15⟩ := h1
  obtain ⟨b1, b2, b3, b4, b5, b6, b7, b8, b9, b10, b11, b12, b13, b14, b15⟩ := h2
  exact ⟨b1.trans a1, b2.trans a2, b3.trans a3, b4.trans a4, b5.trans a5,
    b6.trans a6, b7.trans a7, b8.trans a8, b9.trans a9, b10.trans a10,
    b11.trans a11, b12.trans a12, b13.trans a13, b14.trans a14, b15.trans a15⟩

/-- What a successful run of the constructor tail leaves in the object. -/
theorem ctor_tail_ok {m s : eos_barotr_spline} (h : ctor_tail m = .ok s) :
    same_tables m s ∧
    ¬ (s.zerotemp = true ∧ m.isentropic = false) ∧
    (∀ t, m.temp_gm1 = some t →
      0 ≤ t.range_y.min ∧ s.temp0 = t.eval m.rggm1.min ∧
      s.zerotemp = decide (t.range_y.max = 0)) ∧
    (m.temp_gm1 = none → s.temp0 = m.temp0 ∧ s.zerotemp = m.zerotemp) ∧
    (∀ e, m.efrac_gm1 = some e → s.efrac0 = e.eval m.rggm1.min) ∧
    (m.efrac_gm1 = none → s.efrac0 = m.efrac0) := by
  unfold ctor_tail at h
  split at h
  · cases h
  · rename_i m1 h1
    split at h
    · cases h
    · rename_i m2 h2
      cases h
      obtain ⟨st1, he1, ht1, hn1⟩ := temp_block_ok h1
      obtain ⟨rfl, hg⟩ := zerotemp_guard_ok h2
      obtain ⟨st2, e1, e2, e3, e4⟩ := efrac_block_frame m2
      have hst := same_tables_trans st1 st2
      obtain ⟨q1, q2, q3, q4, q5, q6, q7, q8, q9, q10, q11, q12, q13, q14, q15⟩ := st1
      refine ⟨hst, ?_, ?_, ?_, ?_, ?_⟩
      · rw [e2, ← q15]; exact hg
      · intro t ht
        obtain ⟨p1, p2, p3⟩ := ht1 t ht
        exact ⟨p1, e1.trans p2, e2.trans p3⟩
      · intro hn
        obtain ⟨p1, p2⟩ := hn1 hn
        exact ⟨e1.trans p1, e2.trans p2⟩
      · intro e he
        rw [← q8] at he
        rw [e3 e he, q10]
      · intro hn
        rw [← q8] at hn
        rw [e4 hn, he1]

/-- The guards a successful constructor body has passed. -/
theorem ctor_body_ok {m s : eos_barotr_spline} (h : ctor_body m = .ok s) :
    gm1_low_contained m ∧ m.gm1_rho.contains m.rho_low ∧
    0 ≤ m.rho_gm1.range_y.min ∧ m.csnd_gm1.range_y.max < 1 ∧
    0 ≤ m.csnd_gm1.range_y.min ∧ 0 ≤ m.p_gm1.range_y.min ∧
    0 ≤ m.gm1_rho.range_y.min ∧ ctor_tail m = .ok s := by
  unfold ctor_body at h
  split_ifs at h with h1 h2 h3 h4 h5 h6 h7
  exact ⟨h1, h2, not_lt.mp h3, not_le.mp h4, not_lt.mp h5,
    not_lt.mp h6, not_lt.mp h7, h⟩

theorem ctor_ok {d : member_defaults} {a : ctor_args} {s : eos_barotr_spline}
    (h : eos_barotr_spline.ctor d a = .ok s) :
    ∃ m, init_members d a = .ok m ∧ ctor_body m = .ok s := by
  unfold eos_barotr_spline.ctor at h
  split at h
  · cases h
  · rename_i m hm
    exact ⟨m, hm, h⟩

/-- Members of a constructed object that come straight from the arguments. -/
theorem ctor_ok_members {d : member_defaults} {a : ctor_args}
    {s : eos_barotr_spline} (h : eos_barotr_spline.ctor d a = .ok s) :
    members_of_args a s := by
  obtain ⟨m, hm, hb⟩ := ctor_ok h
  obtain ⟨hma, -⟩ := init_members_ok hm
  obtain ⟨-, -, -, -, -, -, -, ht⟩ := ctor_body_ok hb
  obtain ⟨hst, -⟩ := ctor_tail_ok ht
  unfold same_tables at hst
  unfold members_of_args at *
  obtain ⟨q1, q2, q3, q4, q5, q6, q7, q8, q9, q10, q11, q12, q13, q14, q15⟩ := hst
  obtain ⟨a1, a2, a3, a4, a5, a6, a7, a8, a9, a10, a11, a12, a13⟩ := hma
  exact ⟨q1.trans a1, q2.trans a2, q3.trans a3, q4.trans a4, q5.trans a5,
    q6.trans a6, q7.trans a7, q8.trans a8, q9.trans a9, q12.trans a10,
    q13.trans a11, q15.trans a12, by rw [q10]; exact a13⟩

/-! ## Evaluation contract -/

/-- C1: on a successfully constructed `eos_barotr_spline`, each of `eps`,
`press`, `rho`, `hm1`, `csnd` at `x` is the value of its own spline at `x`
when `x >= gm1_low` and the crust's function of the same name otherwise, and
`gm1_from_rho` at `x` is the gm1-of-rho spline when `x >= rho_low` and the
crust's `gm1_from_rho` otherwise; `gm1_low` and `rho_low` are the upper
bounds of the crust's ranges. -/
theorem eval_selects_spline_or_crust (d : member_defaults) (a : ctor_args)
    (s : eos_barotr_spline) (x : real_t)
    (h : eos_barotr_spline.ctor d a = .ok s) :
    s.gm1_low = a.poly_.range_gm1.max ∧ s.rho_low = a.poly_.range_rho.max ∧
    s.eps x = (if x ≥ s.gm1_low then a.eps_gm1_.eval x else a.poly_.eps x) ∧
    s.press x = (if x ≥ s.gm1_low then a.p_gm1_.eval x else a.poly_.press x) ∧
    s.rho x = (if x ≥ s.gm1_low then a.rho_gm1_.eval x else a.poly_.rho x) ∧
    s.hm1 x = (if x ≥ s.gm1_low then a.hm1_gm1_.eval x else a.poly_.hm1 x) ∧
    s.csnd x = (if x ≥ s.gm1_low then a.csnd_gm1_.eval x else a.poly_.csnd x) ∧
    s.gm1_from_rho x
      = (if x ≥ s.rho_low then a.gm1_rho_.eval x else a.poly_.gm1_from_rho x) := by
  obtain ⟨a1, a2, a3, a4, a5, a6, -, -, a9, a10, a11, -, -⟩ := ctor_ok_members h
  refine ⟨a10, a11, ?_, ?_, ?_, ?_, ?_, ?_⟩
  · simp only [eos_barotr_spline.eps, a2, a9]
  · simp only [eos_barotr_spline.press, a3, a9]
  · simp only [eos_barotr_spline.rho, a5, a9]
  · simp only [eos_barotr_spline.hm1, a4, a9]
  · simp only [eos_barotr_spline.csnd, a6, a9]
  · simp only [eos_barotr_spline.gm1_from_rho, a1, a9]

/-- Instance of C1 on the sample tables, at `x = 2` (spline side of both
thresholds). -/
theorem eval_selects_spline_or_crust_witness :
    eos_barotr_spline.ctor ex_defaults ex_args = .ok ex_eos ∧
    ex_eos.eps 2 = 2 ∧ ex_eos.csnd 2 = 1 / 4 ∧ ex_eos.gm1_from_rho 2 = 2 := by
  have h := eval_selects_spline_or_crust ex_defaults ex_args ex_eos 2 ex_ctor_ok
  obtain ⟨-, -, h1, -, -, -, h5, h6⟩ := h
  refine ⟨ex_ctor_ok, ?_, ?_, ?_⟩
  · rw [h1]; norm_num [ex_eos, ex_args, ex_id]
  · rw [h5]; norm_num [ex_eos, ex_args, ex_csnd]
  · rw [h6]; norm_num [ex_eos, ex_args, ex_id]

/-! ## Temperature below the join -/

/-- C2, counterexample: on the sample tables (temperature spline present,
not zero-temperature, `gm1_low = 1`) the temperature spline at `gm1_low` is
`1`, while `temp(gm1_low)` and `temp(1/2)` return the stored constant `1/2`,
which is the spline evaluated at `rggm1.min() = 0`. -/
theorem temp_join_counterexample :
    eos_barotr_spline.ctor ex_defaults ex_args = .ok ex_eos ∧
    ex_args.temp_gm1_ = some ex_id ∧ ex_id.range_y.max ≠ 0 ∧
    ex_eos.gm1_low = 1 ∧ ex_id.eval ex_eos.gm1_low = 1 ∧
    ex_eos.temp ex_eos.gm1_low = some (1 / 2) ∧
    ex_eos.temp ex_eos.gm1_low ≠ some (ex_id.eval ex_eos.gm1_low) ∧
    ex_eos.temp (1 / 2) ≠ some (ex_id.eval ex_eos.gm1_low) := by
  refine ⟨ex_ctor_ok, rfl, ?_, rfl, ?_, ?_, ?_, ?_⟩ <;>
    norm_num [eos_barotr_spline.temp, ex_eos, ex_id]

/-- C2, amended: for an `eos_barotr_spline` built with a temperature spline
that is not zero-temperature, `temp(gm1)` is one stored constant `temp0` for
every `gm1 < gm1_low` and the spline evaluated at `gm1` for every
`gm1 > gm1_low`.  The statement also records where the constructor reads
the constant: the temperature spline at `rggm1.min() = 0`. -/
theorem temp_constant_below_join (d : member_defaults) (a : ctor_args)
    (s : eos_barotr_spline) (t : lgspl_t)
    (h : eos_barotr_spline.ctor d a = .ok s)
    (ht : a.temp_gm1_ = some t) (hz : t.range_y.max ≠ 0) :
    s.rggm1.min = 0 ∧ s.temp0 = t.eval 0 ∧
    (∀ gm1, gm1 < s.gm1_low → s.temp gm1 = some (t.eval 0)) ∧
    (∀ gm1, s.gm1_low < gm1 → s.temp gm1 = some (t.eval gm1)) := by
  obtain ⟨m, hm, hb⟩ := ctor_ok h
  obtain ⟨hma, -⟩ := init_members_ok hm
  obtain ⟨-, -, -, -, -, -, -, htl⟩ := ctor_body_ok hb
  obtain ⟨hst, -, htt, -⟩ := ctor_tail_ok htl
  have hmt : m.temp_gm1 = some t := by rw [hma.2.2.2.2.2.2.1]; exact ht
  obtain ⟨-, h0, hzt⟩ := htt t hmt
  have hmin : m.rggm1.min = 0 := hma.2.2.2.2.2.2.2.2.2.2.2.2
  have hst7 : s.temp_gm1 = some t := by rw [hst.2.2.2.2.2.2.1]; exact hmt
  have hzf : s.zerotemp = false := by rw [hzt]; simp [hz]
  rw [hmin] at h0
  refine ⟨(ctor_ok_members h).2.2.2.2.2.2.2.2.2.2.2.2, h0, ?_, ?_⟩
  · intro gm1 hg
    simp [eos_barotr_spline.temp, hzf, le_of_lt hg, h0]
  · intro gm1 hg
    simp [eos_barotr_spline.temp, hzf, not_le.mpr hg, hst7]

/-- Instance of the amended C2 on the sample tables. -/
theorem temp_constant_below_join_witness :
    eos_barotr_spline.ctor ex_defaults ex_args = .ok ex_eos ∧
    ex_args.temp_gm1_ = some ex_id ∧ ex_id.range_y.max ≠ 0 ∧
    ex_eos.temp0 = ex_id.eval 0 ∧
    ex_eos.temp (1 / 2) = some (ex_id.eval 0) ∧
    ex_eos.temp 2 = some (ex_id.eval 2) :=
  have hz : ex_id.range_y.max ≠ 0 := by norm_num [ex_id]
  have h := temp_constant_below_join ex_defaults ex_args ex_eos ex_id
    ex_ctor_ok rfl hz
  ⟨ex_ctor_ok, rfl, hz, h.2.1,
    h.2.2.1 (1 / 2) (by norm_num [ex_eos]),
    h.2.2.2 2 (by norm_num [ex_eos])⟩

/-! ## Construction-time guards -/

theorem gm1_low_contained_iff {a : ctor_args} {m : eos_barotr_spline}
    (hma : members_of_args a m) : gm1_low_contained m ↔ gm1_low_in_domains a := by
  obtain ⟨a1, a2, a3, a4, a5, a6, a7, a8, a9, a10, a11, a12, a13⟩ := hma
  unfold gm1_low_contained gm1_low_in_domains
  rw [a2, a3, a4, a5, a6, a7, a8, a10]

theorem rho_low_contained_iff {a : ctor_args} {m : eos_barotr_spline}
    (hma : members_of_args a m) :
    m.gm1_rho.contains m.rho_low ↔ rho_low_in_domain a := by
  obtain ⟨a1, a2, a3, a4, a5, a6, a7, a8, a9, a10, a11, a12, a13⟩ := hma
  unfold rho_low_in_domain
  rw [a1, a11]

theorem ctor_of_init {d : member_defaults} {a : ctor_args}
    {m : eos_barotr_spline} (hm : init_members d a = .ok m) :
    eos_barotr_spline.ctor d a = ctor_body m := by
  unfold eos_barotr_spline.ctor
  rw [hm]

theorem ctor_of_init_error {d : member_defaults} {a : ctor_args} {e : Error}
    (hm : init_members d a = .error e) :
    eos_barotr_spline.ctor d a = .error e := by
  unfold eos_barotr_spline.ctor
  rw [hm]

theorem init_members_error {d : member_defaults} {a : ctor_args} {e : Error}
    (hm : init_members d a = .error e) : e = .invalid_interval := by
  have hmk : ∀ lo hi : real_t, ∀ e2, interval.make lo hi = .error e2 →
      e2 = .invalid_interval := by
    intro lo hi e2 h2
    unfold interval.make at h2
    split_ifs at h2
    cases h2
    rfl
  unfold init_members at hm
  split at hm
  · rename_i e1 h1
    cases hm
    unfold get_rggm1 at h1
    exact hmk _ _ _ h1
  · split at hm
    · rename_i e1 h1
      cases hm
      exact hmk _ _ _ h1
    · cases hm

/-- C3: construction fails whenever `gm1_low` (the crust's upper gm1 bound)
is outside the domain of one of the eps, pressure, density, sound-speed,
enthalpy splines or of a present temperature / electron-fraction spline, or
`rho_low` is outside the domain of the gm1-of-rho spline.  The constructor
body raises the "matching polytrope outside sampled range" error (for g-1,
resp. for rho) as its first two guards, so that is the error whenever the
member initialisers have completed; every constructed object has `gm1_low`
inside every gm1-axis spline domain and `rho_low` inside the gm1-of-rho
domain. -/
theorem matching_polytrope_guard (d : member_defaults) (a : ctor_args) :
    (∀ m, init_members d a = .ok m → ¬ gm1_low_in_domains a →
      eos_barotr_spline.ctor d a = .error .matching_outside_gm1) ∧
    (∀ m, init_members d a = .ok m → gm1_low_in_domains a →
      ¬ rho_low_in_domain a →
      eos_barotr_spline.ctor d a = .error .matching_outside_rho) ∧
    (¬ (gm1_low_in_domains a ∧ rho_low_in_domain a) →
      ∃ e, eos_barotr_spline.ctor d a = .error e ∧
        (e = .matching_outside_gm1 ∨ e = .matching_outside_rho ∨
         e = .invalid_interval)) ∧
    (∀ s, eos_barotr_spline.ctor d a = .ok s →
      gm1_low_contained s ∧ s.gm1_rho.contains s.rho_low ∧
      gm1_low_in_domains a ∧ rho_low_in_domain a) := by
  have p1 : ∀ m, init_members d a = .ok m → ¬ gm1_low_in_domains a →
      eos_barotr_spline.ctor d a = .error .matching_outside_gm1 := by
    intro m hm hn
    have hma := (init_members_ok hm).1
    rw [ctor_of_init hm]
    unfold ctor_body
    rw [if_pos (by rw [gm1_low_contained_iff hma]; exact hn)]
  have p2 : ∀ m, init_members d a = .ok m → gm1_low_in_domains a →
      ¬ rho_low_in_domain a →
      eos_barotr_spline.ctor d a = .error .matching_outside_rho := by
    intro m hm hg hn
    have hma := (init_members_ok hm).1
    rw [ctor_of_init hm]
    unfold ctor_body
    rw [if_neg (by rw [gm1_low_contained_iff hma]; exact not_not.mpr hg),
      if_pos (by rw [rho_low_contained_iff hma]; exact hn)]
  refine ⟨p1, p2, ?_, ?_⟩
  · intro hn
    cases hi : init_members d a with
    | error e =>
      refine ⟨e, ctor_of_init_error hi, Or.inr (Or.inr (init_members_error hi))⟩
    | ok m =>
      by_cases hg : gm1_low_in_domains a
      · have hr : ¬ rho_low_in_domain a := fun hr => hn ⟨hg, hr⟩
        exact ⟨_, p2 m hi hg hr, Or.inr (Or.inl rfl)⟩
      · exact ⟨_, p1 m hi hg, Or.inl rfl⟩
  · intro s hs
    obtain ⟨m, hm, hb⟩ := ctor_ok hs
    have hma := (init_members_ok hm).1
    obtain ⟨c1, c2, -, -, -, -, -, -⟩ := ctor_body_ok hb
    have hsa := ctor_ok_members hs
    exact ⟨(gm1_low_contained_iff hsa).mpr ((gm1_low_contained_iff hma).mp c1),
      (rho_low_contained_iff hsa).mpr ((rho_low_contained_iff hma).mp c2),
      (gm1_low_contained_iff hma).mp c1, (rho_low_contained_iff hma).mp c2⟩

theorem ex_init_gm1_far :
    init_members ex_defaults { ex_args with poly_ := ex_poly_gm1_far }
      = .ok { ex_eos with temp0 := 0, zerotemp := true, efrac0 := 0,
                          poly := ex_poly_gm1_far, gm1_low := 5 } := by
  simp only [init_members, ex_args, ex_get_rggm1]
  norm_num [interval.make, ex_id, ex_eos, ex_poly, ex_poly_gm1_far, ex_defaults]

/-- Instance of C3: with the crust's upper gm1 bound at `5` and all tables
on `[1/2, 4]` the constructor raises the g-1 matching error. -/
theorem matching_polytrope_guard_witness :
    ¬ gm1_low_in_domains { ex_args with poly_ := ex_poly_gm1_far } ∧
    eos_barotr_spline.ctor ex_defaults { ex_args with poly_ := ex_poly_gm1_far }
      = .error .matching_outside_gm1 :=
  have hn : ¬ gm1_low_in_domains { ex_args with poly_ := ex_poly_gm1_far } := by
    norm_num [gm1_low_in_domains, spline_t.contains, interval.contains,
      ex_args, ex_id, ex_poly_gm1_far]
  ⟨hn, (matching_polytrope_guard ex_defaults
      { ex_args with poly_ := ex_poly_gm1_far }).1 _ ex_init_gm1_far hn⟩

theorem value_ranges_of_members {a : ctor_args} {m : eos_barotr_spline}
    (hma : members_of_args a m) :
    value_ranges_physical a ↔
      (0 ≤ m.rho_gm1.range_y.min ∧
       (0 ≤ m.csnd_gm1.range_y.min ∧ m.csnd_gm1.range_y.max < 1) ∧
       0 ≤ m.p_gm1.range_y.min ∧ 0 ≤ m.gm1_rho.range_y.min) := by
  obtain ⟨a1, a2, a3, a4, a5, a6, a7, a8, a9, a10, a11, a12, a13⟩ := hma
  unfold value_ranges_physical
  rw [a1, a3, a5, a6]

/-- C4: every successfully constructed `eos_barotr_spline` has the minimum
of the density spline's value range `>= 0`, the sound-speed spline's value
range inside `[0, 1)`, the minimum of the pressure spline's value range
`>= 0` and the minimum of the gm1-of-rho spline's value range `>= 0`; if any
of the four is violated (a sound-speed maximum of exactly `1` included) the
constructor throws and returns no object, and once the member initialisers
and the two matching guards have passed the error is the one of the
violated condition. -/
theorem physical_value_ranges (d : member_defaults) (a : ctor_args) :
    (∀ s, eos_barotr_spline.ctor d a = .ok s →
      value_ranges_physical a ∧
      0 ≤ s.rho_gm1.range_y.min ∧
      (0 ≤ s.csnd_gm1.range_y.min ∧ s.csnd_gm1.range_y.max < 1) ∧
      0 ≤ s.p_gm1.range_y.min ∧ 0 ≤ s.gm1_rho.range_y.min) ∧
    (¬ value_ranges_physical a → ∃ e, eos_barotr_spline.ctor d a = .error e) ∧
    (a.csnd_gm1_.range_y.max = 1 → ∃ e, eos_barotr_spline.ctor d a = .error e) ∧
    (∀ m, init_members d a = .ok m → gm1_low_in_domains a →
      rho_low_in_domain a → ¬ value_ranges_physical a →
      ∃ e, eos_barotr_spline.ctor d a = .error e ∧
        (e = .negative_density ∨ e = .csnd_ge_one ∨ e = .csnd_negative ∨
         e = .negative_pressure ∨ e = .g_less_one)) := by
  have p1 : ∀ s, eos_barotr_spline.ctor d a = .ok s → value_ranges_physical a := by
    intro s hs
    obtain ⟨m, hm, hb⟩ := ctor_ok hs
    have hma := (init_members_ok hm).1
    obtain ⟨-, -, c3, c4, c5, c6, c7, -⟩ := ctor_body_ok hb
    exact (value_ranges_of_members hma).mpr ⟨c3, ⟨c5, c4⟩, c6, c7⟩
  have p2 : ¬ value_ranges_physical a →
      ∃ e, eos_barotr_spline.ctor d a = .error e := by
    intro hn
    cases hc : eos_barotr_spline.ctor d a with
    | error e => exact ⟨e, rfl⟩
    | ok s => exact absurd (p1 s hc) hn
  refine ⟨?_, p2, ?_, ?_⟩
  · intro s hs
    exact ⟨p1 s hs, (value_ranges_of_members (ctor_ok_members hs)).mp (p1 s hs)⟩
  · intro h1
    apply p2
    intro hv
    have := hv.2.1.2
    rw [h1] at this
    exact lt_irrefl _ this
  · intro m hm hg hr hn
    have hma := (init_members_ok hm).1
    have hn2 := fun h => hn ((value_ranges_of_members hma).mpr h)
    rw [ctor_of_init hm]
    unfold ctor_body
    rw [if_neg (not_not.mpr ((gm1_low_contained_iff hma).mpr hg)),
      if_neg (not_not.mpr ((rho_low_contained_iff hma).mpr hr))]
    split_ifs with h3 h4 h5 h6 h7
    · exact ⟨_, rfl, Or.inl rfl⟩
    · exact ⟨_, rfl, Or.inr (Or.inl rfl)⟩
    · exact ⟨_, rfl, Or.inr (Or.inr (Or.inl rfl))⟩
    · exact ⟨_, rfl, Or.inr (Or.inr (Or.inr (Or.inl rfl)))⟩
    · exact ⟨_, rfl, Or.inr (Or.inr (Or.inr (Or.inr rfl)))⟩
    · exact absurd ⟨not_lt.mp h3, ⟨not_lt.mp h5, not_le.mp h4⟩, not_lt.mp h6,
        not_lt.mp h7⟩ hn2

/-- Instance of C4: a sound-speed table whose value range reaches exactly
`1` is rejected. -/
theorem physical_value_ranges_witness :
    ex_csnd_one.range_y.max = 1 ∧
    ∃ e, eos_barotr_spline.ctor ex_defaults
      { ex_args with csnd_gm1_ := ex_csnd_one } = .error e :=
  ⟨rfl, (physical_value_ranges ex_defaults
      { ex_args with csnd_gm1_ := ex_csnd_one }).2.2.1 rfl⟩

/-! ## Zero-temperature tables -/

theorem ex_init_zero_isen :
    init_members ex_defaults ex_args_zero_isen
      = .ok { ex_eos_zero with temp0 := 0, zerotemp := true, efrac0 := 0 } := by
  have hr : get_rggm1 ex_id ex_id ex_id ex_id ex_id ex_csnd (some ex_zero)
      (some ex_id) = .ok ⟨0, 4⟩ := by
    simp [get_rggm1, intersect5, intersect, interval.make, ex_id, ex_csnd, ex_zero]
  simp only [init_members, ex_args_zero_isen, ex_args, hr]
  norm_num [interval.make, ex_id, ex_eos, ex_eos_zero, ex_poly, ex_defaults]

theorem ex_ctor_zero_ok :
    eos_barotr_spline.ctor ex_defaults ex_args_zero_isen = .ok ex_eos_zero := by
  simp only [eos_barotr_spline.ctor, ex_init_zero_isen]
  norm_num [ctor_body, gm1_low_contained, spline_t.contains, interval.contains,
    opt_contains, ctor_tail, temp_block, zerotemp_guard, efrac_block, ex_eos,
    ex_eos_zero, ex_id, ex_csnd, ex_poly, ex_zero]

/-- C7: for an `eos_barotr_spline` whose temperature spline has maximum
value zero, the object is flagged zero-temperature and `temp(gm1)` is
exactly `0` for every `gm1`, on both sides of the join; the result does not
depend on the stored constant `temp0` nor on the temperature spline held by
the object. -/
theorem zero_temperature_identically_zero (d : member_defaults)
    (a : ctor_args) (s : eos_barotr_spline) (t : lgspl_t)
    (h : eos_barotr_spline.ctor d a = .ok s)
    (ht : a.temp_gm1_ = some t) (hz : t.range_y.max = 0) :
    s.zerotemp = true ∧
    (∀ gm1, s.temp gm1 = some 0) ∧
    (∀ (gm1 c : real_t) (t2 : opt_t),
      ({ s with temp0 := c, temp_gm1 := t2 } : eos_barotr_spline).temp gm1
        = some 0) := by
  obtain ⟨m, hm, hb⟩ := ctor_ok h
  have hma := (init_members_ok hm).1
  obtain ⟨-, -, -, -, -, -, -, htl⟩ := ctor_body_ok hb
  obtain ⟨-, -, htt, -⟩ := ctor_tail_ok htl
  have hmt : m.temp_gm1 = some t := by rw [hma.2.2.2.2.2.2.1]; exact ht
  obtain ⟨-, -, hzt⟩ := htt t hmt
  have hzs : s.zerotemp = true := by rw [hzt]; simp [hz]
  refine ⟨hzs, ?_, ?_⟩
  · intro gm1
    simp [eos_barotr_spline.temp, hzs]
  · intro gm1 c t2
    simp [eos_barotr_spline.temp, hzs]

/-- Instance of C7 on the sample zero-temperature tables, below and above
the join `gm1_low = 1`. -/
theorem zero_temperature_identically_zero_witness :
    eos_barotr_spline.ctor ex_defaults ex_args_zero_isen = .ok ex_eos_zero ∧
    ex_args_zero_isen.temp_gm1_ = some ex_zero ∧ ex_zero.range_y.max = 0 ∧
    ex_eos_zero.temp (1 / 2) = some 0 ∧ ex_eos_zero.temp 2 = some 0 :=
  have h := zero_temperature_identically_zero ex_defaults ex_args_zero_isen
    ex_eos_zero ex_zero ex_ctor_zero_ok rfl rfl
  ⟨ex_ctor_zero_ok, rfl, rfl, h.2.1 (1 / 2), h.2.1 2⟩

/-! ## Electron fraction -/

/-- C8: on a successfully constructed `eos_barotr_spline`, `ye(gm1)` throws
for some (equivalently every) `gm1` exactly when no electron-fraction spline
was supplied; with the spline present `ye(gm1)` never throws and returns the
spline at `gm1` for `gm1 >= gm1_low` and the one stored constant `efrac0`
for `gm1 < gm1_low`. -/
theorem electron_fraction_access (d : member_defaults) (a : ctor_args)
    (s : eos_barotr_spline) (h : eos_barotr_spline.ctor d a = .ok s) :
    (a.efrac_gm1_ = none → ∀ gm1, s.ye gm1 = .error .efrac_not_available) ∧
    (∀ gm1, (∃ e, s.ye gm1 = .error e) ↔ a.efrac_gm1_ = none) ∧
    (∀ y, a.efrac_gm1_ = some y →
      (∀ gm1, gm1 ≥ s.gm1_low → s.ye gm1 = .ok (y.eval gm1)) ∧
      (∀ gm1, gm1 < s.gm1_low → s.ye gm1 = .ok s.efrac0)) := by
  have hsa := ctor_ok_members h
  have he : s.efrac_gm1 = a.efrac_gm1_ := hsa.2.2.2.2.2.2.2.1
  refine ⟨?_, ?_, ?_⟩
  · intro hn gm1
    simp [eos_barotr_spline.ye, he, hn]
  · intro gm1
    cases hy : a.efrac_gm1_ with
    | none => simp [eos_barotr_spline.ye, he, hy]
    | some y => simp [eos_barotr_spline.ye, he, hy]
  · intro y hy
    constructor
    · intro gm1 hg
      simp [eos_barotr_spline.ye, he, hy, hg]
    · intro gm1 hg
      simp [eos_barotr_spline.ye, he, hy, not_le.mpr hg]

theorem ex_ctor_noye_ok :
    eos_barotr_spline.ctor ex_defaults ex_args_noye = .ok ex_eos_noye := by
  have hr : get_rggm1 ex_id ex_id ex_id ex_id ex_id ex_csnd (some ex_id) none
      = .ok ⟨0, 4⟩ := by
    simp [get_rggm1, intersect5, intersect, interval.make, ex_id, ex_csnd]
  have hi : init_members ex_defaults ex_args_noye
      = .ok { ex_eos_noye with temp0 := 0, zerotemp := true } := by
    simp only [init_members, ex_args_noye, ex_args, hr]
    norm_num [interval.make, ex_id, ex_eos, ex_eos_noye, ex_poly, ex_defaults]
  simp only [eos_barotr_spline.ctor, hi]
  norm_num [ctor_body, gm1_low_contained, spline_t.contains, interval.contains,
    opt_contains, ctor_tail, temp_block, zerotemp_guard, efrac_block, ex_eos,
    ex_eos_noye, ex_id, ex_csnd, ex_poly]

/-- Instance of C8: without an electron-fraction table `ye` throws below and
above the join. -/
theorem electron_fraction_access_witness :
    eos_barotr_spline.ctor ex_defaults ex_args_noye = .ok ex_eos_noye ∧
    ex_args_noye.efrac_gm1_ = none ∧
    ex_eos_noye.ye (1 / 2) = .error .efrac_not_available ∧
    ex_eos_noye.ye 2 = .error .efrac_not_available :=
  have h := (electron_fraction_access ex_defaults ex_args_noye ex_eos_noye
    ex_ctor_noye_ok).1 rfl
  ⟨ex_ctor_noye_ok, rfl, h (1 / 2), h 2⟩

/-! ## Causality -/

theorem gm1_old_gm1_new (gc g : real_t) (hgc : gc ≠ -1) :
    gm1_old gc (gm1_new gc g) = g := by
  have h1 : (1 : real_t) + gc ≠ 0 := by
    intro h0
    apply hgc
    linarith
  unfold gm1_old gm1_new
  field_simp
  ring

theorem gm1_new_gm1_old (gc g : real_t) (hgc : gc ≠ -1) :
    gm1_new gc (gm1_old gc g) = g := by
  have h1 : (1 : real_t) + gc ≠ 0 := by
    intro h0
    apply hgc
    linarith
  unfold gm1_old gm1_new
  field_simp
  ring

/-- C9: for every `gcorr` other than `-1`, `gm1_new` is a bijection with
inverse `gm1_old`: `gm1_old(gm1_new(g)) = g` and `gm1_new(gm1_old(g)) = g`
for every `g`. -/
theorem gm1_remap_bijection (gc : real_t) (hgc : gc ≠ -1) :
    (∀ g, gm1_old gc (gm1_new gc g) = g) ∧
    (∀ g, gm1_new gc (gm1_old gc g) = g) ∧
    Function.Bijective (gm1_new gc) := by
  refine ⟨fun g => gm1_old_gm1_new gc g hgc, fun g => gm1_new_gm1_old gc g hgc,
    ?_, ?_⟩
  · intro x y hxy
    rw [← gm1_old_gm1_new gc x hgc, ← gm1_old_gm1_new gc y hgc, hxy]
  · intro y
    exact ⟨gm1_old gc y, gm1_new_gm1_old gc y hgc⟩

/-- Instance of C9 at `gcorr = 1/2`, `g = 3`. -/
theorem gm1_remap_bijection_witness :
    (1 / 2 : real_t) ≠ -1 ∧ gm1_old (1 / 2) (gm1_new (1 / 2) 3) = 3 ∧
    gm1_new (1 / 2) (gm1_old (1 / 2) 3) = 3 :=
  have hgc : (1 / 2 : real_t) ≠ -1 := by norm_num
  ⟨hgc, (gm1_remap_bijection (1 / 2) hgc).1 3,
    (gm1_remap_bijection (1 / 2) hgc).2.1 3⟩

/-- C10: whenever `gm1_join = gm1_rho(rho_join)` is not `-1`,
`gm1_new(gm1_join)` is the crust's own `gm1_from_rho(rho_join)`, so the
lower bound of the resampling domain `rg_gm1` is exactly the crust's
pseudo-enthalpy at `rho_join`; and `gm1_old` maps that bound back to
`gm1_join` (the crust's pseudo-enthalpy being different from `-1`, as it
is for `g >= 1`). -/
theorem join_agrees_with_crust (poly : eos_barotr_gpoly) (f : eos_funcs)
    (rg_rho : interval) (hj : gm1_join f rg_rho ≠ -1) :
    gm1_new (gcorr poly f rg_rho) (gm1_join f rg_rho)
      = poly.gm1_from_rho (rho_join rg_rho) ∧
    (∀ rg, rg_gm1 poly f rg_rho = .ok rg →
      rg.min = poly.gm1_from_rho (rho_join rg_rho)) ∧
    (poly.gm1_from_rho (rho_join rg_rho) ≠ -1 →
      gm1_old (gcorr poly f rg_rho) (poly.gm1_from_rho (rho_join rg_rho))
        = gm1_join f rg_rho) := by
  have h1 : (1 : real_t) + gm1_join f rg_rho ≠ 0 := by
    intro h0
    apply hj
    linarith
  have hnew : gm1_new (gcorr poly f rg_rho) (gm1_join f rg_rho)
      = poly.gm1_from_rho (rho_join rg_rho) := by
    unfold gm1_new gcorr
    field_simp
  refine ⟨hnew, ?_, ?_⟩
  · intro rg hrg
    unfold rg_gm1 at hrg
    rw [(interval_make_ok hrg).1, hnew]
  · intro hc
    have hgc : gcorr poly f rg_rho ≠ -1 := by
      intro h0
      apply hc
      have h2 := hnew
      unfold gm1_new at h2
      rw [h0] at h2
      linarith
    rw [← hnew]
    exact gm1_old_gm1_new (gcorr poly f rg_rho) _ hgc

/-- Instance of C10: user table `gm1_rho(r) = 2 r`, crust
`gm1_from_rho(r) = 3 r`, density interval `[1, 3]`: `gm1_join = 2`, the
crust gives `3`, and the resampling domain is `[3, 25/3]`. -/
theorem join_agrees_with_crust_witness :
    gm1_join ex_funcs ⟨1, 3⟩ ≠ -1 ∧
    gm1_join ex_funcs ⟨1, 3⟩ = 2 ∧
    ex_poly_join.gm1_from_rho (rho_join ⟨1, 3⟩) = 3 ∧
    rg_gm1 ex_poly_join ex_funcs ⟨1, 3⟩ = .ok ⟨3, 25 / 3⟩ ∧
    gm1_new (gcorr ex_poly_join ex_funcs ⟨1, 3⟩) (gm1_join ex_funcs ⟨1, 3⟩)
      = ex_poly_join.gm1_from_rho (rho_join ⟨1, 3⟩) ∧
    gm1_old (gcorr ex_poly_join ex_funcs ⟨1, 3⟩)
        (ex_poly_join.gm1_from_rho (rho_join ⟨1, 3⟩))
      = gm1_join ex_funcs ⟨1, 3⟩ :=
  have hj : gm1_join ex_funcs ⟨1, 3⟩ ≠ -1 := by
    norm_num [gm1_join, rho_join, ex_funcs]
  have hc : ex_poly_join.gm1_from_rho (rho_join ⟨1, 3⟩) ≠ -1 := by
    norm_num [rho_join, ex_poly_join]
  have h := join_agrees_with_crust ex_poly_join ex_funcs ⟨1, 3⟩ hj
  ⟨hj, by norm_num [gm1_join, rho_join, ex_funcs],
    by norm_num [rho_join, ex_poly_join],
    by norm_num [rg_gm1, interval.make, gm1_new, gcorr, gm1_join, rho_join,
      ex_funcs, ex_poly_join],
    h.1, h.2.2 hc⟩

/-! ## `make_eos_barotr_spline`: the guard on the resampling domain -/

theorem ctor_tail_error {m : eos_barotr_spline} {e : Error}
    (h : ctor_tail m = .error e) :
    e = .negative_temperature ∨ e = .zerotemp_not_isentropic := by
  unfold ctor_tail at h
  split at h
  · rename_i e1 h1
    cases h
    unfold temp_block at h1
    split at h1
    · split_ifs at h1
      cases h1
      exact Or.inl rfl
    · cases h1
  · split at h
    · rename_i e2 h2
      cases h
      unfold zerotemp_guard at h2
      split_ifs at h2
      cases h2
      exact Or.inr rfl
    · cases h

/-- The constructor never raises the builder's range error. -/
theorem ctor_error_ne_range {d : member_defaults} {a : ctor_args} {e : Error}
    (h : eos_barotr_spline.ctor d a = .error e) :
    e ≠ .invalid_interpolation_range := by
  cases hi : init_members d a with
  | error e1 =>
    rw [ctor_of_init_error hi] at h
    cases h
    rw [init_members_error hi]
    decide
  | ok m =>
    rw [ctor_of_init hi] at h
    unfold ctor_body at h
    split_ifs at h
    all_goals first
      | (cases h; decide)
      | (rcases ctor_tail_error h with h1 | h1 <;> rw [h1] <;> decide)

/-- C11: once the crust and the interval `rg_gm1` have been formed, the
function-based `make_eos_barotr_spline` fails with the range error "invalid
interval requested for interpolation range" exactly when the lower bound
`gm1_new(gm1_join)` of `rg_gm1` is `<= 0`; a bound of exactly `0` is
rejected, and the failure does not depend on the spline engines (no spline
is sampled) and yields no object. -/
theorem resample_lower_bound_guard (env : library_env) (f : eos_funcs)
    (isentropic : Bool) (rg_rho : interval) (n_poly : real_t) (u : units)
    (pts_per_mag : ℕ) (poly : eos_barotr_gpoly) (rg : interval)
    (hpoly : env.from_boundary (rho_join rg_rho) (eps_join f rg_rho)
      (p_join f rg_rho) n_poly (rhomax_poly rg_rho) u = .ok poly)
    (hrg : rg_gm1 poly f rg_rho = .ok rg) :
    rg.min = gm1_new (gcorr poly f rg_rho) (gm1_join f rg_rho) ∧
    (make_eos_barotr_spline env f isentropic rg_rho n_poly u pts_per_mag
        = .error .invalid_interpolation_range ↔
      gm1_new (gcorr poly f rg_rho) (gm1_join f rg_rho) ≤ 0) ∧
    (gm1_new (gcorr poly f rg_rho) (gm1_join f rg_rho) = 0 →
      make_eos_barotr_spline env f isentropic rg_rho n_poly u pts_per_mag
        = .error .invalid_interpolation_range) ∧
    (gm1_new (gcorr poly f rg_rho) (gm1_join f rg_rho) ≤ 0 →
      ∀ (l ll : (real_t → real_t) → interval → ℕ → spline_t)
        (pc : List real_t → List real_t → spline_t) (d : member_defaults),
        make_eos_barotr_spline
          { env with logspl_from_function := l, llogspl_from_function := ll,
                     make_interpol_pchip_spline := pc, defaults := d }
          f isentropic rg_rho n_poly u pts_per_mag
          = .error .invalid_interpolation_range) := by
  have hmin : rg.min = gm1_new (gcorr poly f rg_rho) (gm1_join f rg_rho) := by
    unfold rg_gm1 at hrg
    exact (interval_make_ok hrg).1
  have hfail : ∀ env2 : library_env,
      env2.from_boundary = env.from_boundary →
      gm1_new (gcorr poly f rg_rho) (gm1_join f rg_rho) ≤ 0 →
      make_eos_barotr_spline env2 f isentropic rg_rho n_poly u pts_per_mag
        = .error .invalid_interpolation_range := by
    intro env2 he hle
    unfold make_eos_barotr_spline
    rw [he, hpoly]
    simp only [hrg]
    rw [if_pos (by rw [hmin]; exact hle)]
  refine ⟨hmin, ⟨?_, hfail env rfl⟩, fun h0 => hfail env rfl (le_of_eq h0), ?_⟩
  · intro herr
    by_contra hpos
    unfold make_eos_barotr_spline at herr
    rw [hpoly] at herr
    simp only [hrg] at herr
    rw [if_neg (by rw [hmin]; exact hpos)] at herr
    exact ctor_error_ne_range herr rfl
  · intro hle l ll pc d
    exact hfail _ rfl hle

/-- Instance of C11: user table `gm1_rho(r) = 2 r`, crust `gm1(r) = 3 r`,
density interval `[0, 3]`: the lower bound of `rg_gm1` is exactly `0` and
the builder raises the range error. -/
theorem resample_lower_bound_guard_witness :
    rg_gm1 ex_poly_join ex_funcs ⟨0, 3⟩ = .ok ⟨0, 6⟩ ∧
    gm1_new (gcorr ex_poly_join ex_funcs ⟨0, 3⟩) (gm1_join ex_funcs ⟨0, 3⟩) = 0 ∧
    make_eos_barotr_spline ex_env ex_funcs false ⟨0, 3⟩ 1 ⟨⟩ 200
      = .error .invalid_interpolation_range :=
  have hrg : rg_gm1 ex_poly_join ex_funcs ⟨0, 3⟩ = .ok ⟨0, 6⟩ := by
    norm_num [rg_gm1, interval.make, gm1_new, gcorr, gm1_join, rho_join,
      ex_funcs, ex_poly_join]
  have h0 : gm1_new (gcorr ex_poly_join ex_funcs ⟨0, 3⟩)
      (gm1_join ex_funcs ⟨0, 3⟩) = 0 := by
    norm_num [gm1_new, gcorr, gm1_join, rho_join, ex_funcs, ex_poly_join]
  ⟨hrg, h0,
    (resample_lower_bound_guard ex_env ex_funcs false ⟨0, 3⟩ 1 ⟨⟩ 200
      ex_poly_join ⟨0, 6⟩ rfl hrg).2.2.1 h0⟩

/-! ## Sample counts -/

/-- C15: the column-based `make_eos_barotr_spline` fails with the range error
"target density range outside provided sample points", producing no
object, whenever `rg_rho` is not contained in the domain of the interpolant
fitted to the `(rho, gm1)` columns; when it is contained the result is that
of the function-based builder applied to the interpolants of the columns,
the temperature (electron-fraction) function being absent exactly when the
temperature (electron-fraction) column is empty. -/
theorem column_builder (env : library_env)
    (gm1 rho eps press csnd temp efrac : List real_t) (isentropic : Bool)
    (rg_rho : interval) (n_poly : real_t) (uc : units) (pts_per_mag : ℕ) :
    (¬ (env.make_interpol_pchip_spline rho gm1).contains_interval rg_rho →
      make_eos_barotr_spline_columns env gm1 rho eps press csnd temp efrac
        isentropic rg_rho n_poly uc pts_per_mag
        = .error .target_range_outside_samples) ∧
    ((env.make_interpol_pchip_spline rho gm1).contains_interval rg_rho →
      make_eos_barotr_spline_columns env gm1 rho eps press csnd temp efrac
        isentropic rg_rho n_poly uc pts_per_mag
        = make_eos_barotr_spline env
            { gm1_rho := (env.make_interpol_pchip_spline rho gm1).eval
              rho_gm1 := (env.make_interpol_pchip_spline gm1 rho).eval
              eps_gm1 := (env.make_interpol_pchip_spline gm1 eps).eval
              press_gm1 := (env.make_interpol_pchip_spline gm1 press).eval
              csnd_gm1 := (env.make_interpol_pchip_spline gm1 csnd).eval
              temp_gm1 := (funcs_of_columns env gm1 rho eps press csnd temp
                            efrac).temp_gm1
              efrac_gm1 := (funcs_of_columns env gm1 rho eps press csnd temp
                             efrac).efrac_gm1 }
            isentropic rg_rho n_poly uc pts_per_mag) ∧
    ((funcs_of_columns env gm1 rho eps press csnd temp efrac).temp_gm1 = none
      ↔ temp = []) ∧
    ((funcs_of_columns env gm1 rho eps press csnd temp efrac).efrac_gm1 = none
      ↔ efrac = []) ∧
    (temp ≠ [] →
      (funcs_of_columns env gm1 rho eps press csnd temp efrac).temp_gm1
        = some (env.make_interpol_pchip_spline gm1 temp).eval) ∧
    (efrac ≠ [] →
      (funcs_of_columns env gm1 rho eps press csnd temp efrac).efrac_gm1
        = some (env.make_interpol_pchip_spline gm1 efrac).eval) := by
  refine ⟨?_, ?_, ?_, ?_, ?_, ?_⟩
  · intro hn
    unfold make_eos_barotr_spline_columns
    rw [if_pos hn]
  · intro hc
    unfold make_eos_barotr_spline_columns
    rw [if_neg (not_not.mpr hc)]
    rfl
  · unfold funcs_of_columns
    cases temp <;> simp
  · unfold funcs_of_columns
    cases efrac <;> simp
  · intro hne
    unfold funcs_of_columns
    cases temp with
    | nil => exact absurd rfl hne
    | cons x xs => simp
  · intro hne
    unfold funcs_of_columns
    cases efrac with
    | nil => exact absurd rfl hne
    | cons x xs => simp

/-- Instance of C15: density samples spanning `[1, 2]` and the requested
interval `[0, 3]`. -/
theorem column_builder_witness :
    ¬ (ex_env.make_interpol_pchip_spline [1, 2] [2, 4]).contains_interval ⟨0, 3⟩ ∧
    make_eos_barotr_spline_columns ex_env [2, 4] [1, 2] [1, 2] [1, 2] [1, 2]
      [] [] true ⟨0, 3⟩ 1 ⟨⟩ 200 = .error .target_range_outside_samples :=
  have hn : ¬ (ex_env.make_interpol_pchip_spline [1, 2] [2, 4]).contains_interval
      ⟨0, 3⟩ := by
    norm_num [spline_t.contains_interval, ex_env]
  ⟨hn, (column_builder ex_env [2, 4] [1, 2] [1, 2] [1, 2] [1, 2] [] [] true
      ⟨0, 3⟩ 1 ⟨⟩ 200).1 hn⟩

/-! ## Stored ranges -/

theorem foldl_intersect_max (l : List interval) (i : interval) :
    (∀ d, d ∈ i :: l → (l.foldl intersect i).max ≤ d.max) ∧
    (∃ d, d ∈ i :: l ∧ (l.foldl intersect i).max = d.max) := by
  induction l generalizing i with
  | nil =>
    refine ⟨?_, i, List.mem_cons_self _ _, rfl⟩
    intro d hd
    simp only [List.mem_singleton] at hd
    rw [hd]
    exact le_refl _
  | cons x xs ih =>
    obtain ⟨h1, d0, hd0, h2⟩ := ih (intersect i x)
    simp only [List.foldl_cons]
    constructor
    · intro d hd
      rcases List.mem_cons.mp hd with h | h
      · rw [h]
        exact le_trans (h1 _ (List.mem_cons_self _ _)) (min_le_left _ _)
      · rcases List.mem_cons.mp h with h | h
        · rw [h]
          exact le_trans (h1 _ (List.mem_cons_self _ _)) (min_le_right _ _)
        · exact h1 d (List.mem_cons_of_mem _ h)
    · rcases List.mem_cons.mp hd0 with h | h
      · rw [h] at h2
        rcases min_choice i.max x.max with hm | hm
        · exact ⟨i, List.mem_cons_self _ _, by rw [h2]; exact hm⟩
        · exact ⟨x, List.mem_cons_of_mem _ (List.mem_cons_self _ _),
            by rw [h2]; exact hm⟩
      · exact ⟨d0, List.mem_cons_of_mem _ (List.mem_cons_of_mem _ h), h2⟩

theorem foldl_intersect_min (l : List interval) (i : interval) :
    ∀ d, d ∈ i :: l → d.min ≤ (l.foldl intersect i).min := by
  induction l generalizing i with
  | nil =>
    intro d hd
    simp only [List.mem_singleton] at hd
    rw [hd]
    exact le_refl _
  | cons x xs ih =>
    intro d hd
    simp only [List.foldl_cons]
    have h1 := ih (intersect i x)
    rcases List.mem_cons.mp hd with h | h
    · rw [h]
      exact le_trans (le_max_left _ _) (h1 _ (List.mem_cons_self _ _))
    · rcases List.mem_cons.mp h with h | h
      · rw [h]
        exact le_trans (le_max_right _ _) (h1 _ (List.mem_cons_self _ _))
      · exact h1 d (List.mem_cons_of_mem _ h)

theorem get_rggm1_eq (a : ctor_args) :
    get_rggm1 a.gm1_rho_ a.eps_gm1_ a.p_gm1_ a.hm1_gm1_ a.rho_gm1_ a.csnd_gm1_
      a.temp_gm1_ a.efrac_gm1_ = interval.make 0 (domains_intersection a).max := by
  unfold get_rggm1 domains_intersection gm1_axis_domains
  cases a.temp_gm1_ <;> cases a.efrac_gm1_ <;> rfl

theorem ctor_ok_rggm1 {d : member_defaults} {a : ctor_args}
    {s : eos_barotr_spline} (h : eos_barotr_spline.ctor d a = .ok s) :
    s.rggm1.min = 0 ∧ s.rggm1.max = (domains_intersection a).max ∧
    interval.make 0 (a.rho_gm1_.eval s.rggm1.max) = .ok s.rgrho := by
  obtain ⟨m, hm, hb⟩ := ctor_ok h
  obtain ⟨-, -, -, -, hrg, hrr⟩ := init_members_ok hm
  obtain ⟨-, -, -, -, -, -, -, htl⟩ := ctor_body_ok hb
  obtain ⟨hst, -⟩ := ctor_tail_ok htl
  have e1 : s.rggm1 = m.rggm1 := hst.2.2.2.2.2.2.2.2.2.1
  have e2 : s.rgrho = m.rgrho := hst.2.2.2.2.2.2.2.2.2.2.1
  rw [get_rggm1_eq] at hrg
  obtain ⟨g1, g2, -⟩ := interval_make_ok hrg
  rw [e1, e2]
  exact ⟨g1, g2, hrr⟩

/-- C16, counterexample: on the sample tables every gm1-axis spline has the
domain `[1/2, 4]`, so the intersection of the domains is `[1/2, 4]` with
lower bound `1/2`, while the stored range `rggm1` is `[0, 4]`. -/
theorem rggm1_counterexample :
    eos_barotr_spline.ctor ex_defaults ex_args = .ok ex_eos ∧
    domains_intersection ex_args = ⟨1 / 2, 4⟩ ∧
    ex_eos.rggm1 = ⟨0, 4⟩ ∧
    ex_eos.rggm1.min ≠ (domains_intersection ex_args).min ∧
    ex_eos.rggm1 ≠ domains_intersection ex_args := by
  have hd : domains_intersection ex_args = ⟨1 / 2, 4⟩ := by
    simp [domains_intersection, gm1_axis_domains, intersect, ex_args, ex_id,
      ex_csnd]
  refine ⟨ex_ctor_ok, hd, rfl, ?_, ?_⟩
  · rw [hd]
    norm_num [ex_eos]
  · rw [hd]
    intro h
    have := congrArg interval.min h
    norm_num [ex_eos] at this

/-- C16, amended: the pseudo-enthalpy domain stored by an
`eos_barotr_spline` (`rggm1`, computed by `get_rggm1`) has as upper bound
the upper bound of the intersection of the domains of all supplied gm1-axis
splines, that is the smallest of their upper bounds, and as lower bound
`0` (not the largest of their lower bounds). -/
theorem rggm1_upper_is_intersection (d : member_defaults) (a : ctor_args)
    (s : eos_barotr_spline) (h : eos_barotr_spline.ctor d a = .ok s) :
    s.rggm1 = ⟨0, (domains_intersection a).max⟩ ∧
    (∀ dom, dom ∈ gm1_axis_domains a → s.rggm1.max ≤ dom.max) ∧
    (∃ dom, dom ∈ gm1_axis_domains a ∧ s.rggm1.max = dom.max) ∧
    (∀ dom, dom ∈ gm1_axis_domains a → dom.min ≤ (domains_intersection a).min) := by
  obtain ⟨h1, h2, -⟩ := ctor_ok_rggm1 h
  have hl : gm1_axis_domains a
      = a.eps_gm1_.range_x :: (gm1_axis_domains a).tail := by
    unfold gm1_axis_domains
    rfl
  obtain ⟨f1, f2⟩ := foldl_intersect_max (gm1_axis_domains a).tail a.eps_gm1_.range_x
  have f3 := foldl_intersect_min (gm1_axis_domains a).tail a.eps_gm1_.range_x
  rw [← hl] at f1 f2 f3
  refine ⟨?_, ?_, ?_, f3⟩
  · cases hs : s.rggm1 with
    | mk lo hi =>
      rw [hs] at h1 h2
      simp only at h1 h2
      rw [h1, h2]
  · intro dom hdom
    rw [h2]
    exact f1 dom hdom
  · obtain ⟨dom, hdom, he⟩ := f2
    exact ⟨dom, hdom, by rw [h2]; exact he⟩

/-- Instance of the amended C16 on the sample tables. -/
theorem rggm1_upper_is_intersection_witness :
    eos_barotr_spline.ctor ex_defaults ex_args = .ok ex_eos ∧
    ex_eos.rggm1 = ⟨0, (domains_intersection ex_args).max⟩ :=
  ⟨ex_ctor_ok,
    (rggm1_upper_is_intersection ex_defaults ex_args ex_eos ex_ctor_ok).1⟩

theorem gm1_low_in_every_domain {a : ctor_args} (h : gm1_low_in_domains a) :
    ∀ dom, dom ∈ gm1_axis_domains a → dom.contains a.poly_.range_gm1.max := by
  obtain ⟨h1, h2, h3, h4, h5, h6, h7⟩ := h
  intro dom hdom
  unfold gm1_axis_domains at hdom
  simp only [List.mem_append, List.mem_cons, List.mem_singleton, List.mem_map,
    Option.mem_toList, Option.mem_def, List.not_mem_nil, or_false] at hdom
  rcases hdom with ((h | h | h | h | h) | ⟨t, ht, hd⟩) | ⟨y, hy, hd⟩
  · rw [h]; exact h1
  · rw [h]; exact h2
  · rw [h]; exact h5
  · rw [h]; exact h3
  · rw [h]; exact h4
  · rw [ht] at h6
    rw [← hd]
    exact h6
  · rw [hy] at h7
    rw [← hd]
    exact h7

/-- The join threshold of a constructed object lies at or below the upper
bound of its stored gm1 range. -/
theorem ctor_ok_gm1_low_le_max {d : member_defaults} {a : ctor_args}
    {s : eos_barotr_spline} (h : eos_barotr_spline.ctor d a = .ok s) :
    s.gm1_low ≤ s.rggm1.max := by
  obtain ⟨m, hm, hb⟩ := ctor_ok h
  have hma := (init_members_ok hm).1
  obtain ⟨c1, -⟩ := ctor_body_ok hb
  have hg := (gm1_low_contained_iff hma).mp c1
  have hsa := ctor_ok_members h
  obtain ⟨-, h2, -⟩ := ctor_ok_rggm1 h
  have hl : gm1_axis_domains a
      = a.eps_gm1_.range_x :: (gm1_axis_domains a).tail := by
    unfold gm1_axis_domains
    rfl
  obtain ⟨-, dom, hdom, he⟩ :=
    foldl_intersect_max (gm1_axis_domains a).tail a.eps_gm1_.range_x
  rw [← hl] at hdom
  rw [hsa.2.2.2.2.2.2.2.2.2.1, h2]
  unfold domains_intersection
  rw [he]
  exact (gm1_low_in_every_domain hg dom hdom).2

/-- C18: on a default-constructed `eos_thermal` handle `range_rho()` throws
the uninitialized-use error, and `at_rho_eps_ye` and `at_rho_temp_ye` throw
(that same error) for every argument triple; they return no state, valid or
invalid. -/
theorem default_handle_throws :
    eos_thermal.default.range_rho = .error .uninitialized_use ∧
    (∀ rho eps ye, eos_thermal.default.at_rho_eps_ye rho eps ye
      = .error .uninitialized_use) ∧
    (∀ rho temp ye, eos_thermal.default.at_rho_temp_ye rho temp ye
      = .error .uninitialized_use) ∧
    (∀ rho eps ye st, eos_thermal.default.at_rho_eps_ye rho eps ye ≠ .ok st) ∧
    (∀ rho temp ye st, eos_thermal.default.at_rho_temp_ye rho temp ye ≠ .ok st) := by
  have h1 : ∀ rho eps ye, eos_thermal.default.at_rho_eps_ye rho eps ye
      = .error .uninitialized_use := by
    intro rho eps ye
    rfl
  have h2 : ∀ rho temp ye, eos_thermal.default.at_rho_temp_ye rho temp ye
      = .error .uninitialized_use := by
    intro rho temp ye
    rfl
  refine ⟨rfl, h1, h2, ?_, ?_⟩
  · intro rho eps ye st h
    rw [h1] at h
    cases h
  · intro rho temp ye st h
    rw [h2] at h
    cases h

/-! ## Thermal EOS: state factories -/

theorem is_rho_ye_valid_eq {e : eos_thermal} {rr ry : range}
    (hrr : e.impl.range_rho = .ok rr) (hry : e.impl.range_ye = .ok ry)
    (rho ye : real_t) :
    e.is_rho_ye_valid rho ye
      = .ok (decide (rr.contains rho ∧ ry.contains ye)) := by
  unfold eos_thermal.is_rho_ye_valid
  rw [hrr]
  simp only [hry]
  by_cases h : rr.contains rho
  · simp [h]
  · simp [h]

theorem is_rho_ye_valid_outside {e : eos_thermal} {rr : range}
    (hrr : e.impl.range_rho = .ok rr) {rho : real_t} (hout : ¬ rr.contains rho)
    (ye : real_t) : e.is_rho_ye_valid rho ye = .ok false := by
  unfold eos_thermal.is_rho_ye_valid
  rw [hrr]
  simp only [if_neg hout]

theorem is_rho_eps_ye_valid_eq {e : eos_thermal} {rr ry : range}
    {re : real_t → real_t → range}
    (hrr : e.impl.range_rho = .ok rr) (hry : e.impl.range_ye = .ok ry)
    (hre : ∀ rho ye, rr.contains rho → ry.contains ye →
      e.impl.range_eps rho ye = .ok (re rho ye))
    (rho eps ye : real_t) :
    e.is_rho_eps_ye_valid rho eps ye
      = .ok (decide (rr.contains rho ∧ ry.contains ye ∧
          (re rho ye).contains eps)) := by
  unfold eos_thermal.is_rho_eps_ye_valid
  rw [is_rho_ye_valid_eq hrr hry]
  by_cases h : rr.contains rho ∧ ry.contains ye
  · simp only [h, and_self, decide_True, true_and]
    rw [hre rho ye h.1 h.2]
  · simp only [h, decide_False, false_and]
    rcases not_and_or.mp h with h1 | h1 <;> simp [h1]

theorem is_rho_temp_ye_valid_eq {e : eos_thermal} {rr ry : range}
    {rt : real_t → real_t → range}
    (hrr : e.impl.range_rho = .ok rr) (hry : e.impl.range_ye = .ok ry)
    (hrt : ∀ rho ye, rr.contains rho → ry.contains ye →
      e.impl.range_temp rho ye = .ok (rt rho ye))
    (rho temp ye : real_t) :
    e.is_rho_temp_ye_valid rho temp ye
      = .ok (decide (rr.contains rho ∧ ry.contains ye ∧
          (rt rho ye).contains temp)) := by
  unfold eos_thermal.is_rho_temp_ye_valid
  rw [is_rho_ye_valid_eq hrr hry]
  by_cases h : rr.contains rho ∧ ry.contains ye
  · simp only [h, and_self, decide_True, true_and]
    rw [hrt rho ye h.1 h.2]
  · simp only [h, decide_False, false_and]
    rcases not_and_or.mp h with h1 | h1 <;> simp [h1]

/-- C19: for an `eos_thermal` handle whose implementation answers the range
queries, `at_rho_eps_ye(rho, eps, ye)` returns the state flagged invalid,
without throwing, whenever `rho` is outside `range_rho()`, `ye` outside
`range_ye()` or `eps` outside `range_eps(rho, ye)`; inside, it returns the
valid state carrying `rho`, `ye` and `therm = therm_from_rho_eps_ye(rho,
eps, ye)`; a returned state is valid exactly for in-range input.  The same
holds for `at_rho_temp_ye` with `range_temp` and
`therm_from_rho_temp_ye`. -/
theorem factory_validity (e : eos_thermal) (rr ry : range)
    (re rt : real_t → real_t → range)
    (hrr : e.impl.range_rho = .ok rr) (hry : e.impl.range_ye = .ok ry)
    (hre : ∀ rho ye, rr.contains rho → ry.contains ye →
      e.impl.range_eps rho ye = .ok (re rho ye))
    (hrt : ∀ rho ye, rr.contains rho → ry.contains ye →
      e.impl.range_temp rho ye = .ok (rt rho ye))
    (rho x ye : real_t) :
    state.invalid_default.valid = false ∧
    (¬ (rr.contains rho ∧ ry.contains ye ∧ (re rho ye).contains x) →
      e.at_rho_eps_ye rho x ye = .ok state.invalid_default) ∧
    ((rr.contains rho ∧ ry.contains ye ∧ (re rho ye).contains x) →
      ∀ th, e.impl.therm_from_rho_eps_ye rho x ye = .ok th →
        e.at_rho_eps_ye rho x ye = .ok ⟨true, e.impl, rho, th, ye⟩) ∧
    (∀ st, e.at_rho_eps_ye rho x ye = .ok st →
      (st.valid = true ↔
        (rr.contains rho ∧ ry.contains ye ∧ (re rho ye).contains x)) ∧
      (st.valid = true → st.rho_ = rho ∧ st.ye_ = ye ∧
        e.impl.therm_from_rho_eps_ye rho x ye = .ok st.therm_)) ∧
    (¬ (rr.contains rho ∧ ry.contains ye ∧ (rt rho ye).contains x) →
      e.at_rho_temp_ye rho x ye = .ok state.invalid_default) ∧
    ((rr.contains rho ∧ ry.contains ye ∧ (rt rho ye).contains x) →
      ∀ th, e.impl.therm_from_rho_temp_ye rho x ye = .ok th →
        e.at_rho_temp_ye rho x ye = .ok ⟨true, e.impl, rho, th, ye⟩) ∧
    (∀ st, e.at_rho_temp_ye rho x ye = .ok st →
      (st.valid = true ↔
        (rr.contains rho ∧ ry.contains ye ∧ (rt rho ye).contains x)) ∧
      (st.valid = true → st.rho_ = rho ∧ st.ye_ = ye ∧
        e.impl.therm_from_rho_temp_ye rho x ye = .ok st.therm_)) := by
  have ve := is_rho_eps_ye_valid_eq hrr hry hre rho x ye
  have vt := is_rho_temp_ye_valid_eq hrr hry hrt rho x ye
  refine ⟨rfl, ?_, ?_, ?_, ?_, ?_, ?_⟩
  · intro hout
    unfold eos_thermal.at_rho_eps_ye
    rw [ve]
    simp [hout]
  · intro hin th hth
    unfold eos_thermal.at_rho_eps_ye
    rw [ve]
    simp [hin, hth]
  · intro st hst
    unfold eos_thermal.at_rho_eps_ye at hst
    rw [ve] at hst
    by_cases hin : rr.contains rho ∧ ry.contains ye ∧ (re rho ye).contains x
    · simp only [hin, and_self, decide_True] at hst
      cases hth : e.impl.therm_from_rho_eps_ye rho x ye with
      | error err =>
        rw [hth] at hst
        cases hst
      | ok th =>
        rw [hth] at hst
        cases hst
        exact ⟨⟨fun _ => hin, fun _ => rfl⟩, fun _ => ⟨rfl, rfl, rfl⟩⟩
    · simp only [hin, decide_False] at hst
      cases hst
      constructor
      · constructor
        · intro hv
          exact absurd hv (by decide)
        · intro h
          exact absurd h hin
      · intro hv
        exact absurd hv (by decide)
  · intro hout
    unfold eos_thermal.at_rho_temp_ye
    rw [vt]
    simp [hout]
  · intro hin th hth
    unfold eos_thermal.at_rho_temp_ye
    rw [vt]
    simp [hin, hth]
  · intro st hst
    unfold eos_thermal.at_rho_temp_ye at hst
    rw [vt] at hst
    by_cases hin : rr.contains rho ∧ ry.contains ye ∧ (rt rho ye).contains x
    · simp only [hin, and_self, decide_True] at hst
      cases hth : e.impl.therm_from_rho_temp_ye rho x ye with
      | error err =>
        rw [hth] at hst
        cases hst
      | ok th =>
        rw [hth] at hst
        cases hst
        exact ⟨⟨fun _ => hin, fun _ => rfl⟩, fun _ => ⟨rfl, rfl, rfl⟩⟩
    · simp only [hin, decide_False] at hst
      cases hst
      constructor
      · constructor
        · intro hv
          exact absurd hv (by decide)
        · intro h
          exact absurd h hin
      · intro hv
        exact absurd hv (by decide)

/-- Instance of C19 on the sample implementation: density `20` is outside
`[0, 10]`, density `1` with `eps = 2`, `ye = 1/2` is inside. -/
theorem factory_validity_witness :
    ex_thermal.impl.range_rho = .ok ⟨0, 10⟩ ∧
    ex_thermal.impl.range_ye = .ok ⟨0, 1⟩ ∧
    ex_thermal.at_rho_eps_ye 20 2 (1 / 2) = .ok state.invalid_default ∧
    ex_thermal.at_rho_eps_ye 1 2 (1 / 2)
      = .ok ⟨true, ex_thermal.impl, 1, 2, 1 / 2⟩ :=
  have hout : ¬ (interval.contains ⟨0, 10⟩ 20 ∧ interval.contains ⟨0, 1⟩ (1 / 2) ∧
      interval.contains ⟨0, 5⟩ 2) := by
    norm_num [interval.contains]
  have hin : interval.contains ⟨0, 10⟩ 1 ∧ interval.contains ⟨0, 1⟩ (1 / 2) ∧
      interval.contains ⟨0, 5⟩ 2 := by
    norm_num [interval.contains]
  ⟨rfl, rfl,
    (factory_validity ex_thermal ⟨0, 10⟩ ⟨0, 1⟩ (fun _ _ => ⟨0, 5⟩)
      (fun _ _ => ⟨0, 50⟩) rfl rfl (fun _ _ _ _ => rfl) (fun _ _ _ _ => rfl)
      20 2 (1 / 2)).2.1 hout,
    (factory_validity ex_thermal ⟨0, 10⟩ ⟨0, 1⟩ (fun _ _ => ⟨0, 5⟩)
      (fun _ _ => ⟨0, 50⟩) rfl rfl (fun _ _ _ _ => rfl) (fun _ _ _ _ => rfl)
      1 2 (1 / 2)).2.2.1 hin 2 rfl⟩

/-! ## Thermal EOS: accessors on an invalid state -/

theorem args_invalid {st : state} (h : st.valid = false) :
    st.args = .error .invalid_state := by
  unfold state.args state.rho
  rw [if_pos h]
  rfl

/-- C20: on every state flagged invalid, each of `rho()`, `ye()`, `press()`,
`csnd()`, `temp()`, `eps()`, `sentr()`, `dpress_drho()`, `dpress_deps()`
fails with the "invalid matter state" error, whatever the implementation
behind the state would return and whether or not assertions are enabled, so
no postcondition assertion is reached; a factory call with density outside
`range_rho()` returns such a state. -/
theorem invalid_state_accessors (st : state) (asserts : Bool)
    (h : st.valid = false) :
    st.rho = .error .invalid_state ∧ st.ye = .error .invalid_state ∧
    st.press asserts = .error .invalid_state ∧
    st.csnd asserts = .error .invalid_state ∧
    st.temp asserts = .error .invalid_state ∧
    st.eps asserts = .error .invalid_state ∧
    st.sentr = .error .invalid_state ∧
    st.dpress_drho = .error .invalid_state ∧
    st.dpress_deps = .error .invalid_state ∧
    (∀ (e : eos_thermal) (rr : range) (rho x ye : real_t),
      e.impl.range_rho = .ok rr → ¬ rr.contains rho →
      e.at_rho_eps_ye rho x ye = .ok state.invalid_default ∧
      e.at_rho_temp_ye rho x ye = .ok state.invalid_default ∧
      state.invalid_default.valid = false) := by
  have ha := args_invalid h
  refine ⟨?_, ?_, ?_, ?_, ?_, ?_, ?_, ?_, ?_, ?_⟩
  · unfold state.rho
    rw [if_pos h]
    rfl
  · unfold state.ye
    rw [if_pos h]
    rfl
  · unfold state.press
    rw [ha]
  · unfold state.csnd
    rw [ha]
  · unfold state.temp
    rw [ha]
  · unfold state.eps
    rw [ha]
  · unfold state.sentr
    rw [ha]
  · unfold state.dpress_drho
    rw [ha]
  · unfold state.dpress_deps
    rw [ha]
  · intro e rr rho x ye hrr hout
    refine ⟨?_, ?_, rfl⟩
    · unfold eos_thermal.at_rho_eps_ye eos_thermal.is_rho_eps_ye_valid
      rw [is_rho_ye_valid_outside hrr hout]
    · unfold eos_thermal.at_rho_temp_ye eos_thermal.is_rho_temp_ye_valid
      rw [is_rho_ye_valid_outside hrr hout]

/-- Instance of C20: an invalid state over the sample implementation, whose
pressure at the stored point would be `-1`; with assertions enabled
`press()` still fails with the invalid-state error. -/
theorem invalid_state_accessors_witness :
    (⟨false, ex_thermal_impl, 0, 0, 0⟩ : state).valid = false ∧
    ex_thermal_impl.press 0 0 0 = .ok (-1) ∧
    (⟨false, ex_thermal_impl, 0, 0, 0⟩ : state).press true
      = .error .invalid_state ∧
    (⟨false, ex_thermal_impl, 0, 0, 0⟩ : state).csnd true
      = .error .invalid_state :=
  have h := invalid_state_accessors ⟨false, ex_thermal_impl, 0, 0, 0⟩ true rfl
  ⟨rfl, by norm_num [ex_thermal_impl], h.2.2.1, h.2.2.2.1⟩

/-! ## Thermal EOS: the invalid implementation -/

/-- C21, counterexample: `press` of the shared invalid implementation raises
the "invalid matter state" error, which is not the "uninitialized use"
error raised by `range_rho`. -/
theorem invalid_impl_counterexample :
    eos_thermal_invalid.press 0 0 0 = .error .invalid_state ∧
    eos_thermal_invalid.press 0 0 0 ≠ .error .uninitialized_use ∧
    eos_thermal_invalid.range_rho = .error .uninitialized_use ∧
    eos_thermal_invalid.press 0 0 0 ≠ eos_thermal_invalid.range_rho.map (fun _ => 0) := by
  refine ⟨rfl, ?_, rfl, ?_⟩
  · intro h
    cases h
  · intro h
    cases h

/-- C21, amended: every method of the shared invalid implementation throws
for every argument and none returns a value; `range_rho`, `range_ye`,
`range_eps`, `range_temp` and `minimal_h` raise the "uninitialized use"
error (`nope()`), while `therm_from_rho_eps_ye`, `therm_from_rho_temp_ye`,
`eps`, `temp`, `press`, `csnd`, `sentr`, `dpress_drho` and `dpress_deps`
raise the "invalid matter state" error (`invalid()`). -/
theorem invalid_impl_always_throws :
    pbad = eos_thermal_invalid ∧
    eos_thermal_invalid.range_rho = .error .uninitialized_use ∧
    eos_thermal_invalid.range_ye = .error .uninitialized_use ∧
    (∀ rho ye, eos_thermal_invalid.range_eps rho ye = .error .uninitialized_use) ∧
    (∀ rho ye, eos_thermal_invalid.range_temp rho ye = .error .uninitialized_use) ∧
    eos_thermal_invalid.minimal_h = .error .uninitialized_use ∧
    (∀ rho x ye,
      eos_thermal_invalid.therm_from_rho_eps_ye rho x ye = .error .invalid_state ∧
      eos_thermal_invalid.therm_from_rho_temp_ye rho x ye = .error .invalid_state ∧
      eos_thermal_invalid.eps rho x ye = .error .invalid_state ∧
      eos_thermal_invalid.temp rho x ye = .error .invalid_state ∧
      eos_thermal_invalid.press rho x ye = .error .invalid_state ∧
      eos_thermal_invalid.csnd rho x ye = .error .invalid_state ∧
      eos_thermal_invalid.sentr rho x ye = .error .invalid_state ∧
      eos_thermal_invalid.dpress_drho rho x ye = .error .invalid_state ∧
      eos_thermal_invalid.dpress_deps rho x ye = .error .invalid_state) :=
  ⟨rfl, rfl, rfl, fun _ _ => rfl, fun _ _ => rfl, rfl,
    fun _ _ _ => ⟨rfl, rfl, rfl, rfl, rfl, rfl, rfl, rfl, rfl⟩⟩

/-! ## Thermal EOS: accessors on a valid state -/

theorem args_valid {st : state} (h : st.valid = true) :
    st.args = .ok (st.rho_, st.therm_, st.ye_) := by
  have hf : ¬ st.valid = false := by simp [h]
  unfold state.args state.rho state.therm state.ye
  simp only [if_neg hf]

theorem guard_ok_iff {c : Prop} [Decidable c] {e : Error} {p v : real_t} :
    ((if c then Except.error e else Except.ok p) = Except.ok v) ↔ (¬ c ∧ p = v) := by
  by_cases hc : c
  · simp [hc]
  · simp [hc]

theorem press_eq {st : state} (h : st.valid = true) (asserts : Bool) :
    st.press asserts
      = match st.eos.press st.rho_ st.therm_ st.ye_ with
        | .error e => .error e
        | .ok p =>
          if asserts = true ∧ ¬ (p ≥ 0) then .error .assert_press_nonneg
          else .ok p := by
  unfold state.press
  rw [args_valid h]

theorem csnd_eq {st : state} (h : st.valid = true) (asserts : Bool) :
    st.csnd asserts
      = match st.eos.csnd st.rho_ st.therm_ st.ye_ with
        | .error e => .error e
        | .ok cs =>
          if asserts = true ∧ ¬ (cs < 1) then .error .assert_csnd_lt_one
          else if asserts = true ∧ ¬ (cs ≥ 0) then .error .assert_csnd_nonneg
          else .ok cs := by
  unfold state.csnd
  rw [args_valid h]

theorem temp_eq {st : state} (h : st.valid = true) (asserts : Bool) :
    st.temp asserts
      = match st.eos.temp st.rho_ st.therm_ st.ye_ with
        | .error e => .error e
        | .ok temp =>
          if asserts = true ∧ ¬ (temp ≥ 0) then .error .assert_temp_nonneg
          else .ok temp := by
  unfold state.temp
  rw [args_valid h]

theorem eps_eq {st : state} (h : st.valid = true) (asserts : Bool) :
    st.eps asserts
      = match st.eos.eps st.rho_ st.therm_ st.ye_ with
        | .error e => .error e
        | .ok eps =>
          if asserts = true ∧ ¬ (eps ≥ -1) then .error .assert_eps_ge_minus_one
          else .ok eps := by
  unfold state.eps
  rw [args_valid h]

/-- C22: on a valid state, with assertions enabled, each derived-quantity
accessor calls the implementation at the stored `(rho, therm, ye)` (on
every call: the result is a function of the implementation and the stored
triple only) and returns the value only when the postcondition holds:
`press()` a value `>= 0`, `csnd()` a value with `0 <= cs < 1`, `temp()` a
value `>= 0`, `eps()` a value `>= -1`; when the implementation's value
violates the postcondition the assertion fails and no value is returned. -/
theorem valid_state_postconditions (st : state) (h : st.valid = true) :
    (∀ v, st.press true = .ok v ↔
      (st.eos.press st.rho_ st.therm_ st.ye_ = .ok v ∧ 0 ≤ v)) ∧
    (∀ v, st.csnd true = .ok v ↔
      (st.eos.csnd st.rho_ st.therm_ st.ye_ = .ok v ∧ 0 ≤ v ∧ v < 1)) ∧
    (∀ v, st.temp true = .ok v ↔
      (st.eos.temp st.rho_ st.therm_ st.ye_ = .ok v ∧ 0 ≤ v)) ∧
    (∀ v, st.eps true = .ok v ↔
      (st.eos.eps st.rho_ st.therm_ st.ye_ = .ok v ∧ -1 ≤ v)) ∧
    (∀ v, st.eos.press st.rho_ st.therm_ st.ye_ = .ok v → v < 0 →
      st.press true = .error .assert_press_nonneg) ∧
    (∀ v, st.eos.csnd st.rho_ st.therm_ st.ye_ = .ok v → 1 ≤ v →
      st.csnd true = .error .assert_csnd_lt_one) ∧
    (∀ v, st.eos.csnd st.rho_ st.therm_ st.ye_ = .ok v → v < 0 →
      st.csnd true = .error .assert_csnd_nonneg) ∧
    (∀ v, st.eos.temp st.rho_ st.therm_ st.ye_ = .ok v → v < 0 →
      st.temp true = .error .assert_temp_nonneg) ∧
    (∀ v, st.eos.eps st.rho_ st.therm_ st.ye_ = .ok v → v < -1 →
      st.eps true = .error .assert_eps_ge_minus_one) := by
  refine ⟨?_, ?_, ?_, ?_, ?_, ?_, ?_, ?_, ?_⟩
  · intro v
    rw [press_eq h]
    cases hp : st.eos.press st.rho_ st.therm_ st.ye_ with
    | error e => simp
    | ok p =>
      simp only [guard_ok_iff, true_and, not_not, ge_iff_le, Except.ok.injEq]
      constructor
      · intro hv
        exact ⟨hv.2, hv.2 ▸ hv.1⟩
      · intro hv
        exact ⟨hv.1 ▸ hv.2, hv.1⟩
  · intro v
    rw [csnd_eq h]
    cases hp : st.eos.csnd st.rho_ st.therm_ st.ye_ with
    | error e => simp
    | ok p =>
      by_cases h1 : p < 1
      · simp only [h1, not_true_eq_false, and_false, if_false, guard_ok_iff,
          true_and, not_not, ge_iff_le, Except.ok.injEq]
        constructor
        · intro hv
          exact ⟨hv.2, hv.2 ▸ hv.1, hv.2 ▸ h1⟩
        · intro hv
          exact ⟨hv.1 ▸ hv.2.1, hv.1⟩
      · simp only [h1, not_false_eq_true, and_self, if_true, Except.ok.injEq]
        constructor
        · intro hv
          cases hv
        · intro hv
          exact absurd (hv.1 ▸ hv.2.2) h1
  · intro v
    rw [temp_eq h]
    cases hp : st.eos.temp st.rho_ st.therm_ st.ye_ with
    | error e => simp
    | ok p =>
      simp only [guard_ok_iff, true_and, not_not, ge_iff_le, Except.ok.injEq]
      constructor
      · intro hv
        exact ⟨hv.2, hv.2 ▸ hv.1⟩
      · intro hv
        exact ⟨hv.1 ▸ hv.2, hv.1⟩
  · intro v
    rw [eps_eq h]
    cases hp : st.eos.eps st.rho_ st.therm_ st.ye_ with
    | error e => simp
    | ok p =>
      simp only [guard_ok_iff, true_and, not_not, ge_iff_le, Except.ok.injEq]
      constructor
      · intro hv
        exact ⟨hv.2, hv.2 ▸ hv.1⟩
      · intro hv
        exact ⟨hv.1 ▸ hv.2, hv.1⟩
  · intro v hv hneg
    rw [press_eq h, hv]
    simp only [ge_iff_le, not_le.mpr hneg, not_false_eq_true, and_self, if_true]
  · intro v hv hge
    rw [csnd_eq h, hv]
    simp only [not_lt.mpr hge, not_false_eq_true, and_self, if_true]
  · intro v hv hneg
    rw [csnd_eq h, hv]
    have h1 : v < 1 := lt_trans hneg zero_lt_one
    simp only [h1, not_true_eq_false, and_false, if_false, ge_iff_le,
      not_le.mpr hneg, not_false_eq_true, and_self, if_true]
  · intro v hv hneg
    rw [temp_eq h, hv]
    simp only [ge_iff_le, not_le.mpr hneg, not_false_eq_true, and_self, if_true]
  · intro v hv hneg
    rw [eps_eq h, hv]
    simp only [ge_iff_le, not_le.mpr hneg, not_false_eq_true, and_self, if_true]

/-- Instance of C22 on the sample implementation (pressure `rho * th - 1`):
at `(2, 1, 1/2)` the pressure `1` is returned, at `(1/2, 1, 1/2)` the
pressure would be `-1/2` and the assertion fails. -/
theorem valid_state_postconditions_witness :
    (⟨true, ex_thermal_impl, 2, 1, 1 / 2⟩ : state).valid = true ∧
    (⟨true, ex_thermal_impl, 2, 1, 1 / 2⟩ : state).press true = .ok 1 ∧
    (⟨true, ex_thermal_impl, 1 / 2, 1, 1 / 2⟩ : state).press true
      = .error .assert_press_nonneg :=
  ⟨rfl,
    ((valid_state_postconditions ⟨true, ex_thermal_impl, 2, 1, 1 / 2⟩ rfl).1 1).mpr
      ⟨by norm_num [state.eos, ex_thermal_impl], by norm_num⟩,
    (valid_state_postconditions ⟨true, ex_thermal_impl, 1 / 2, 1, 1 / 2⟩
      rfl).2.2.2.2.1 (-1 / 2) (by norm_num [state.eos, ex_thermal_impl])
      (by norm_num)⟩

/-! ## Evaluation inside the spline domains -/

/-- On a constructed object every point from the join threshold up to the
upper bound of the stored gm1 range lies in every gm1-axis domain. -/
theorem ctor_ok_spline_branch_inside {d : member_defaults} {a : ctor_args}
    {s : eos_barotr_spline} (h : eos_barotr_spline.ctor d a = .ok s)
    {gm1 : real_t} (hlo : s.gm1_low ≤ gm1) (hhi : gm1 ≤ s.rggm1.max) :
    ∀ dom, dom ∈ gm1_axis_domains a → dom.contains gm1 := by
  obtain ⟨m, hm, hb⟩ := ctor_ok h
  have hma := (init_members_ok hm).1
  obtain ⟨c1, -⟩ := ctor_body_ok hb
  have hg := (gm1_low_contained_iff hma).mp c1
  have hsa := ctor_ok_members h
  obtain ⟨-, h2, -⟩ := ctor_ok_rggm1 h
  have hl : gm1_axis_domains a
      = a.eps_gm1_.range_x :: (gm1_axis_domains a).tail := by
    unfold gm1_axis_domains
    rfl
  obtain ⟨f1, -⟩ :=
    foldl_intersect_max (gm1_axis_domains a).tail a.eps_gm1_.range_x
  rw [← hl] at f1
  intro dom hdom
  have hc := gm1_low_in_every_domain hg dom hdom
  rw [hsa.2.2.2.2.2.2.2.2.2.1] at hlo
  rw [h2] at hhi
  exact ⟨le_trans hc.1 hlo, le_trans hhi (f1 dom hdom)⟩

theorem mem_gm1_axis_domains (a : ctor_args) :
    a.eps_gm1_.range_x ∈ gm1_axis_domains a ∧
    a.p_gm1_.range_x ∈ gm1_axis_domains a ∧
    a.hm1_gm1_.range_x ∈ gm1_axis_domains a ∧
    a.rho_gm1_.range_x ∈ gm1_axis_domains a ∧
    a.csnd_gm1_.range_x ∈ gm1_axis_domains a ∧
    (∀ t, a.temp_gm1_ = some t → t.range_x ∈ gm1_axis_domains a) ∧
    (∀ y, a.efrac_gm1_ = some y → y.range_x ∈ gm1_axis_domains a) := by
  unfold gm1_axis_domains
  refine ⟨?_, ?_, ?_, ?_, ?_, ?_, ?_⟩
  · simp
  · simp
  · simp
  · simp
  · simp
  · intro t ht
    simp [ht]
  · intro y hy
    simp [hy]

/-- C25: on a successfully constructed `eos_barotr_spline`, every `gm1` with
`gm1_low <= gm1 <= range_gm1.max` lies in the domain of each of the eps,
press, hm1, rho and csnd splines and of the temperature and
electron-fraction splines when present, so the spline branch of every
evaluation method is taken inside the spline's domain. -/
theorem spline_branch_inside_domain (d : member_defaults) (a : ctor_args)
    (s : eos_barotr_spline) (gm1 : real_t)
    (h : eos_barotr_spline.ctor d a = .ok s)
    (hlo : s.gm1_low ≤ gm1) (hhi : gm1 ≤ s.rggm1.max) :
    s.eps_gm1.contains gm1 ∧ s.p_gm1.contains gm1 ∧ s.hm1_gm1.contains gm1 ∧
    s.rho_gm1.contains gm1 ∧ s.csnd_gm1.contains gm1 ∧
    opt_contains s.temp_gm1 gm1 ∧ opt_contains s.efrac_gm1 gm1 := by
  have hin := ctor_ok_spline_branch_inside h hlo hhi
  obtain ⟨m1, m2, m3, m4, m5, m6, m7⟩ := mem_gm1_axis_domains a
  obtain ⟨a1, a2, a3, a4, a5, a6, a7, a8, -⟩ := ctor_ok_members h
  rw [a2, a3, a4, a5, a6, a7, a8]
  refine ⟨hin _ m1, hin _ m2, hin _ m3, hin _ m4, hin _ m5, ?_, ?_⟩
  · cases ht : a.temp_gm1_ with
    | none => trivial
    | some t => exact hin _ (m6 t ht)
  · cases hy : a.efrac_gm1_ with
    | none => trivial
    | some y => exact hin _ (m7 y hy)

/-- Instance of C25 on the sample tables at `gm1 = 2`. -/
theorem spline_branch_inside_domain_witness :
    eos_barotr_spline.ctor ex_defaults ex_args = .ok ex_eos ∧
    ex_eos.gm1_low ≤ 2 ∧ 2 ≤ ex_eos.rggm1.max ∧
    ex_eos.eps_gm1.contains 2 ∧ opt_contains ex_eos.temp_gm1 2 :=
  have hlo : ex_eos.gm1_low ≤ 2 := by norm_num [ex_eos]
  have hhi : (2 : real_t) ≤ ex_eos.rggm1.max := by norm_num [ex_eos]
  have h := spline_branch_inside_domain ex_defaults ex_args ex_eos 2 ex_ctor_ok
    hlo hhi
  ⟨ex_ctor_ok, hlo, hhi, h.1, h.2.2.2.2.2.1⟩

/-! ## Monotonicity -/

theorem ex_ctor_step_ok :
    eos_barotr_spline.ctor ex_defaults ex_args_step = .ok ex_eos_step := by
  have hr : get_rggm1 ex_id ex_id ex_id ex_id ex_half ex_csnd (some ex_id)
      (some ex_id) = .ok ⟨0, 4⟩ := by
    simp [get_rggm1, intersect5, intersect, interval.make, ex_id, ex_csnd, ex_half]
  have hi : init_members ex_defaults ex_args_step
      = .ok { ex_eos_step with temp0 := 0, zerotemp := true, efrac0 := 0 } := by
    simp only [init_members, ex_args_step, ex_args, hr]
    norm_num [interval.make, ex_id, ex_half, ex_eos, ex_eos_step, ex_poly,
      ex_defaults]
  simp only [eos_barotr_spline.ctor, hi]
  norm_num [ctor_body, gm1_low_contained, spline_t.contains, interval.contains,
    opt_contains, ctor_tail, temp_block, zerotemp_guard, efrac_block, ex_eos,
    ex_eos_step, ex_id, ex_half, ex_csnd, ex_poly]

/-- C23, counterexample: the constructor accepts the sample tables with the
density spline `x / 2` (join threshold `gm1_low = 1`, crust density
`rho(g) = g`); `9/10 < 1` both lie in the stored range `[0, 4]`, yet
`rho(9/10) = 9/10` from the crust exceeds `rho(1) = 1/2` from the spline. -/
theorem monotonicity_counterexample :
    eos_barotr_spline.ctor ex_defaults ex_args_step = .ok ex_eos_step ∧
    ex_eos_step.rggm1.contains (9 / 10) ∧ ex_eos_step.rggm1.contains 1 ∧
    (9 / 10 : real_t) < 1 ∧
    ex_eos_step.rho (9 / 10) = 9 / 10 ∧ ex_eos_step.rho 1 = 1 / 2 ∧
    ¬ (ex_eos_step.rho (9 / 10) ≤ ex_eos_step.rho 1) := by
  refine ⟨ex_ctor_step_ok, ?_, ?_, ?_, ?_, ?_, ?_⟩ <;>
    norm_num [interval.contains, eos_barotr_spline.rho, ex_eos_step, ex_eos,
      ex_half, ex_poly]

/-- C23, amended: on a successfully constructed `eos_barotr_spline` whose
density and pressure splines are nondecreasing on their domains, whose
crust is nondecreasing up to the join threshold, and whose crust values at
the join threshold do not exceed the spline values there, `rho` and `press`
are nondecreasing over the stored gm1 range, pairs that straddle the join
included.  The constructor checks none of the three conditions. -/
theorem monotone_given_ordered_join (d : member_defaults) (a : ctor_args)
    (s : eos_barotr_spline) (g1 g2 : real_t)
    (h : eos_barotr_spline.ctor d a = .ok s)
    (hr : a.rho_gm1_.nondecreasing) (hp : a.p_gm1_.nondecreasing)
    (hc : a.poly_.nondecreasing) (hj : join_ordered a)
    (h1 : s.rggm1.contains g1) (h2 : s.rggm1.contains g2) (hlt : g1 < g2) :
    s.rho g1 ≤ s.rho g2 ∧ s.press g1 ≤ s.press g2 := by
  obtain ⟨a1, a2, a3, a4, a5, a6, a7, a8, a9, a10, -⟩ := ctor_ok_members h
  obtain ⟨r0, -, -⟩ := ctor_ok_rggm1 h
  obtain ⟨-, m2, -, m4, -⟩ := mem_gm1_axis_domains a
  have hle := ctor_ok_gm1_low_le_max h
  have hlowin := ctor_ok_spline_branch_inside h (le_refl s.gm1_low) hle
  have h0 : 0 ≤ g1 := by
    have := h1.1
    rw [r0] at this
    exact this
  unfold eos_barotr_spline.rho eos_barotr_spline.press
  rw [a3, a5, a9]
  by_cases hg1 : g1 ≥ s.gm1_low
  · have hg2 : g2 ≥ s.gm1_low := le_trans hg1 (le_of_lt hlt)
    have i1 := ctor_ok_spline_branch_inside h hg1 (le_trans (le_of_lt hlt) h2.2)
    have i2 := ctor_ok_spline_branch_inside h hg2 h2.2
    rw [if_pos hg1, if_pos hg2, if_pos hg1, if_pos hg2]
    exact ⟨hr g1 g2 (i1 _ m4) (i2 _ m4) (le_of_lt hlt),
      hp g1 g2 (i1 _ m2) (i2 _ m2) (le_of_lt hlt)⟩
  · have hg1lt : g1 < a.poly_.range_gm1.max := by
      rw [← a10]
      exact not_le.mp hg1
    by_cases hg2 : g2 ≥ s.gm1_low
    · have i2 := ctor_ok_spline_branch_inside h hg2 h2.2
      rw [if_neg hg1, if_pos hg2, if_neg hg1, if_pos hg2]
      obtain ⟨c1, c2⟩ := hc g1 a.poly_.range_gm1.max h0 (le_of_lt hg1lt) (le_refl _)
      obtain ⟨j1, j2⟩ := hj
      have hg2' : a.poly_.range_gm1.max ≤ g2 := by
        rw [← a10]
        exact hg2
      have il4 : a.rho_gm1_.contains a.poly_.range_gm1.max := by
        have := hlowin _ m4
        rw [a10] at this
        exact this
      have il2 : a.p_gm1_.contains a.poly_.range_gm1.max := by
        have := hlowin _ m2
        rw [a10] at this
        exact this
      exact ⟨le_trans c1 (le_trans j1 (hr _ g2 il4 (i2 _ m4) hg2')),
        le_trans c2 (le_trans j2 (hp _ g2 il2 (i2 _ m2) hg2'))⟩
    · rw [if_neg hg1, if_neg hg2, if_neg hg1, if_neg hg2]
      have hg2le : g2 ≤ a.poly_.range_gm1.max := by
        rw [← a10]
        exact le_of_lt (not_le.mp hg2)
      exact hc g1 g2 h0 (le_of_lt hlt) hg2le

theorem ex_id_nondecreasing : ex_id.nondecreasing := by
  intro x y hx hy hxy
  obtain ⟨x1, x2⟩ := hx
  obtain ⟨y1, y2⟩ := hy
  simp only [ex_id] at x1 x2 y1 y2 ⊢
  rw [min_eq_left x2, max_eq_right x1, min_eq_left y2, max_eq_right y1]
  exact hxy

theorem ex_poly_nondecreasing : ex_poly.nondecreasing := by
  intro x y _ hxy _
  simp only [ex_poly]
  constructor <;> linarith

/-- Instance of the amended C23 on the sample tables, for the straddling
pair `9/10 < 2`. -/
theorem monotone_given_ordered_join_witness :
    eos_barotr_spline.ctor ex_defaults ex_args = .ok ex_eos ∧
    ex_args.rho_gm1_.nondecreasing ∧ ex_args.p_gm1_.nondecreasing ∧
    ex_args.poly_.nondecreasing ∧ join_ordered ex_args ∧
    ex_eos.rggm1.contains (9 / 10) ∧ ex_eos.rggm1.contains 2 ∧
    ex_eos.rho (9 / 10) ≤ ex_eos.rho 2 ∧ ex_eos.press (9 / 10) ≤ ex_eos.press 2 :=
  have hj : join_ordered ex_args := by
    norm_num [join_ordered, ex_args, ex_poly, ex_id]
  have i1 : ex_eos.rggm1.contains (9 / 10) := by
    norm_num [interval.contains, ex_eos]
  have i2 : ex_eos.rggm1.contains 2 := by
    norm_num [interval.contains, ex_eos]
  have h := monotone_given_ordered_join ex_defaults ex_args ex_eos (9 / 10) 2
    ex_ctor_ok ex_id_nondecreasing ex_id_nondecreasing ex_poly_nondecreasing hj
    i1 i2 (by norm_num)
  ⟨ex_ctor_ok, ex_id_nondecreasing, ex_id_nondecreasing, ex_poly_nondecreasing,
    hj, i1, i2, h.1, h.2⟩

/-! ## Spline evaluations made by the constructor -/

/-- On a constructed object the constants `temp0` and `efrac0` are the
values of the temperature and electron-fraction splines at `0`. -/
theorem ctor_ok_constants {d : member_defaults} {a : ctor_args}
    {s : eos_barotr_spline} (h : eos_barotr_spline.ctor d a = .ok s) :
    (∀ t, a.temp_gm1_ = some t → s.temp0 = t.eval 0) ∧
    (∀ y, a.efrac_gm1_ = some y → s.efrac0 = y.eval 0) := by
  obtain ⟨m, hm, hb⟩ := ctor_ok h
  obtain ⟨hma, -⟩ := init_members_ok hm
  obtain ⟨-, -, -, -, -, -, -, htl⟩ := ctor_body_ok hb
  obtain ⟨-, -, htt, -, hee, -⟩ := ctor_tail_ok htl
  have hmin : m.rggm1.min = 0 := hma.2.2.2.2.2.2.2.2.2.2.2.2
  constructor
  · intro t ht
    have hmt : m.temp_gm1 = some t := by rw [hma.2.2.2.2.2.2.1]; exact ht
    rw [(htt t hmt).2.1, hmin]
  · intro y hy
    have hmy : m.efrac_gm1 = some y := by rw [hma.2.2.2.2.2.2.2.1]; exact hy
    rw [hee y hmy, hmin]

/-- The spline evaluation in the initialiser of `rgrho` lies inside the
density spline's domain on every successful construction, and the
evaluations of the constructor body are made at `0`. -/
theorem ctor_ok_evals {d : member_defaults} {a : ctor_args}
    {s : eos_barotr_spline} (h : eos_barotr_spline.ctor d a = .ok s) :
    (∀ v, v ∈ init_evals a s.rggm1 → v.inside) ∧
    (∀ v, v ∈ body_evals s → v.point = 0 ∧
      (v.inside ↔ v.spline.range_x.min ≤ 0)) := by
  obtain ⟨r0, r1, hrr⟩ := ctor_ok_rggm1 h
  obtain ⟨-, -, -, m4, -, m6, m7⟩ := mem_gm1_axis_domains a
  have hle := ctor_ok_gm1_low_le_max h
  have hin := ctor_ok_spline_branch_inside h hle (le_refl _)
  obtain ⟨a1, a2, a3, a4, a5, a6, a7, a8, -⟩ := ctor_ok_members h
  have hmax0 : 0 ≤ s.rggm1.max := by
    obtain ⟨m, hm, hb⟩ := ctor_ok h
    obtain ⟨-, -, -, -, hrg, -⟩ := init_members_ok hm
    obtain ⟨-, -, -, -, -, -, -, htl⟩ := ctor_body_ok hb
    obtain ⟨hst, -⟩ := ctor_tail_ok htl
    rw [hst.2.2.2.2.2.2.2.2.2.1]
    unfold get_rggm1 at hrg
    obtain ⟨-, g2, g3⟩ := interval_make_ok hrg
    rw [g2]
    exact g3
  constructor
  · intro v hv
    unfold init_evals at hv
    simp only [List.mem_singleton] at hv
    rw [hv]
    exact hin _ m4
  · intro v hv
    unfold body_evals at hv
    simp only [List.mem_append, List.mem_map, Option.mem_toList,
      Option.mem_def] at hv
    rcases hv with ⟨t, ht, hv⟩ | ⟨y, hy, hv⟩
    · rw [← hv]
      refine ⟨r0, ?_⟩
      have hd := (hin t.range_x (m6 t (by rw [← a7]; exact ht))).2
      show (t.range_x.min ≤ s.rggm1.min ∧ s.rggm1.min ≤ t.range_x.max) ↔ _
      rw [r0]
      exact ⟨fun hh => hh.1, fun hh => ⟨hh, le_trans hmax0 hd⟩⟩
    · rw [← hv]
      refine ⟨r0, ?_⟩
      have hd := (hin y.range_x (m7 y (by rw [← a8]; exact hy))).2
      show (y.range_x.min ≤ s.rggm1.min ∧ s.rggm1.min ≤ y.range_x.max) ↔ _
      rw [r0]
      exact ⟨fun hh => hh.1, fun hh => ⟨hh, le_trans hmax0 hd⟩⟩

/-- C24, evaluation at the failing input: on the sample tables, whose
temperature and electron-fraction splines have the domain `[1/2, 4]`, the
constructor succeeds; the density spline is evaluated at `rggm1.max() = 4`
inside its domain, but `temp0` and `efrac0` are the splines' values at
`rggm1.min() = 0`, a point outside their domain. -/
theorem ctor_evaluates_outside_domain :
    eos_barotr_spline.ctor ex_defaults ex_args = .ok ex_eos ∧
    ex_args.temp_gm1_ = some ex_id ∧ ex_args.efrac_gm1_ = some ex_id ∧
    ex_id.range_x = ⟨1 / 2, 4⟩ ∧
    init_evals ex_args ex_eos.rggm1 = [⟨ex_id, 4⟩] ∧ ex_id.contains 4 ∧
    body_evals ex_eos = [⟨ex_id, 0⟩, ⟨ex_id, 0⟩] ∧
    ex_eos.temp0 = ex_id.eval 0 ∧ ex_eos.efrac0 = ex_id.eval 0 ∧
    ¬ ex_id.contains 0 ∧
    ¬ (∀ v, v ∈ body_evals ex_eos → v.inside) := by
  have hout : ¬ ex_id.contains 0 := by
    norm_num [spline_t.contains, interval.contains, ex_id]
  obtain ⟨c1, c2⟩ := ctor_ok_constants ex_ctor_ok
  refine ⟨ex_ctor_ok, rfl, rfl, rfl, rfl, ?_, rfl, c1 ex_id rfl, c2 ex_id rfl,
    hout, ?_⟩
  · norm_num [spline_t.contains, interval.contains, ex_id]
  · intro hall
    exact hout (hall ⟨ex_id, 0⟩ (by simp [body_evals, ex_eos]))

/-! ## Negative temperature -/

theorem is_rho_valid_eq {e : eos_thermal} {rr : range}
    (hrr : e.impl.range_rho = .ok rr) (rho : real_t) :
    e.is_rho_valid rho = .ok (decide (rr.contains rho)) := by
  unfold eos_thermal.is_rho_valid eos_thermal.range_rho
  rw [hrr]

theorem is_ye_valid_eq {e : eos_thermal} {ry : range}
    (hry : e.impl.range_ye = .ok ry) (ye : real_t) :
    e.is_ye_valid ye = .ok (decide (ry.contains ye)) := by
  unfold eos_thermal.is_ye_valid eos_thermal.range_ye
  rw [hry]

/-- C26: on a handle whose implementation answers `range_rho()` and
`range_ye()`, `range_eps(rho, ye)` and `range_temp(rho, ye)` throw a range
error when `rho` is outside `range_rho()` (the density error, checked
first) or `ye` is outside `range_ye()`, and otherwise return exactly the
implementation's `range_eps(rho, ye)`, respectively `range_temp(rho, ye)`;
they return a range only for an in-range point. -/
theorem conditional_range_guards (e : eos_thermal) (rr ry : range)
    (hrr : e.impl.range_rho = .ok rr) (hry : e.impl.range_ye = .ok ry)
    (rho ye : real_t) :
    (¬ rr.contains rho →
      e.range_eps rho ye = .error .range_eps_invalid_rho ∧
      e.range_temp rho ye = .error .range_temp_invalid_rho) ∧
    (rr.contains rho → ¬ ry.contains ye →
      e.range_eps rho ye = .error .range_eps_invalid_ye ∧
      e.range_temp rho ye = .error .range_temp_invalid_ye) ∧
    (rr.contains rho → ry.contains ye →
      e.range_eps rho ye = e.impl.range_eps rho ye ∧
      e.range_temp rho ye = e.impl.range_temp rho ye) ∧
    (∀ r, e.range_eps rho ye = .ok r → rr.contains rho ∧ ry.contains ye) ∧
    (∀ r, e.range_temp rho ye = .ok r → rr.contains rho ∧ ry.contains ye) ∧
    (∀ r, e.impl.range_eps rho ye = .ok r →
      ((e.range_eps rho ye = .error .range_eps_invalid_rho ∨
        e.range_eps rho ye = .error .range_eps_invalid_ye) ↔
       ¬ (rr.contains rho ∧ ry.contains ye))) ∧
    (∀ r, e.impl.range_temp rho ye = .ok r →
      ((e.range_temp rho ye = .error .range_temp_invalid_rho ∨
        e.range_temp rho ye = .error .range_temp_invalid_ye) ↔
       ¬ (rr.contains rho ∧ ry.contains ye))) := by
  have p1 : ¬ rr.contains rho →
      e.range_eps rho ye = .error .range_eps_invalid_rho ∧
      e.range_temp rho ye = .error .range_temp_invalid_rho := by
    intro h
    unfold eos_thermal.range_eps eos_thermal.range_temp
    rw [is_rho_valid_eq hrr]
    simp [h]
  have p2 : rr.contains rho → ¬ ry.contains ye →
      e.range_eps rho ye = .error .range_eps_invalid_ye ∧
      e.range_temp rho ye = .error .range_temp_invalid_ye := by
    intro h1 h2
    unfold eos_thermal.range_eps eos_thermal.range_temp
    rw [is_rho_valid_eq hrr, is_ye_valid_eq hry]
    simp [h1, h2]
  have p3 : rr.contains rho → ry.contains ye →
      e.range_eps rho ye = e.impl.range_eps rho ye ∧
      e.range_temp rho ye = e.impl.range_temp rho ye := by
    intro h1 h2
    unfold eos_thermal.range_eps eos_thermal.range_temp
    rw [is_rho_valid_eq hrr, is_ye_valid_eq hry]
    simp [h1, h2]
  refine ⟨p1, p2, p3, ?_, ?_, ?_, ?_⟩
  · intro r hr
    by_cases h1 : rr.contains rho
    · by_cases h2 : ry.contains ye
      · exact ⟨h1, h2⟩
      · rw [(p2 h1 h2).1] at hr
        cases hr
    · rw [(p1 h1).1] at hr
      cases hr
  · intro r hr
    by_cases h1 : rr.contains rho
    · by_cases h2 : ry.contains ye
      · exact ⟨h1, h2⟩
      · rw [(p2 h1 h2).2] at hr
        cases hr
    · rw [(p1 h1).2] at hr
      cases hr
  · intro r hr
    by_cases h1 : rr.contains rho
    · by_cases h2 : ry.contains ye
      · rw [(p3 h1 h2).1, hr]
        simp [h1, h2]
      · rw [(p2 h1 h2).1]
        simp [h2]
    · rw [(p1 h1).1]
      simp [h1]
  · intro r hr
    by_cases h1 : rr.contains rho
    · by_cases h2 : ry.contains ye
      · rw [(p3 h1 h2).2, hr]
        simp [h1, h2]
      · rw [(p2 h1 h2).2]
        simp [h2]
    · rw [(p1 h1).2]
      simp [h1]

/-- Instance of C26 on the sample implementation: density `20` is outside
`[0, 10]`, the point `(1, 1/2)` is inside. -/
theorem conditional_range_guards_witness :
    ex_thermal.impl.range_rho = .ok ⟨0, 10⟩ ∧
    ex_thermal.impl.range_ye = .ok ⟨0, 1⟩ ∧
    ex_thermal.range_eps 20 5 = .error .range_eps_invalid_rho ∧
    ex_thermal.range_eps 1 (1 / 2) = ex_thermal.impl.range_eps 1 (1 / 2) :=
  ⟨rfl, rfl,
    ((conditional_range_guards ex_thermal ⟨0, 10⟩ ⟨0, 1⟩ rfl rfl 20 5).1
      (by norm_num [interval.contains])).1,
    ((conditional_range_guards ex_thermal ⟨0, 10⟩ ⟨0, 1⟩ rfl rfl 1
      (1 / 2)).2.2.1 (by norm_num [interval.contains])
      (by norm_num [interval.contains])).1⟩

/-! ## Thermal EOS: calls made on the implementation -/

theorem is_rho_ye_valid_log_spec (e : eos_thermal) (rho ye : real_t) :
    (e.is_rho_ye_valid_log rho ye).1 = e.is_rho_ye_valid rho ye ∧
    (∀ c, c ∈ (e.is_rho_ye_valid_log rho ye).2 → c = .range_rho ∨ c = .range_ye) ∧
    ((e.is_rho_ye_valid_log rho ye).1 = .ok true →
      ∃ rr ry, e.impl.range_rho = .ok rr ∧ e.impl.range_ye = .ok ry ∧
        rr.contains rho ∧ ry.contains ye) := by
  unfold eos_thermal.is_rho_ye_valid_log eos_thermal.is_rho_ye_valid
  cases hrr : e.impl.range_rho with
  | error err => simp
  | ok rr =>
    by_cases h1 : rr.contains rho
    · cases hry : e.impl.range_ye with
      | error err => simp [h1]
      | ok ry => simp [h1]
    · simp [h1]

theorem is_rho_eps_ye_valid_log_spec (e : eos_thermal) (rho eps ye : real_t) :
    (e.is_rho_eps_ye_valid_log rho eps ye).1 = e.is_rho_eps_ye_valid rho eps ye ∧
    (∀ c, c ∈ (e.is_rho_eps_ye_valid_log rho eps ye).2 → call_admissible e c) ∧
    ((e.is_rho_eps_ye_valid_log rho eps ye).1 = .ok true →
      ∃ rr ry re, e.impl.range_rho = .ok rr ∧ e.impl.range_ye = .ok ry ∧
        e.impl.range_eps rho ye = .ok re ∧
        rr.contains rho ∧ ry.contains ye ∧ re.contains eps) := by
  obtain ⟨h1, h2, h3⟩ := is_rho_ye_valid_log_spec e rho ye
  have hbase : ∀ c, c ∈ (e.is_rho_ye_valid_log rho ye).2 → call_admissible e c := by
    intro c hc
    rcases h2 c hc with h | h <;> rw [h] <;> trivial
  unfold eos_thermal.is_rho_eps_ye_valid_log eos_thermal.is_rho_eps_ye_valid
  rw [← h1]
  rcases hlog : e.is_rho_ye_valid_log rho ye with ⟨res, l⟩
  rw [hlog] at h3 hbase
  simp only at h3 hbase
  cases res with
  | error err => exact ⟨rfl, hbase, fun h => by cases h⟩
  | ok b =>
    cases b with
    | false => exact ⟨rfl, hbase, fun h => by cases h⟩
    | true =>
      obtain ⟨rr, ry, e1, e2, c1, c2⟩ := h3 rfl
      have hadm : call_admissible e (.range_eps rho ye) := ⟨rr, ry, e1, e2, c1, c2⟩
      cases hre : e.impl.range_eps rho ye with
      | error err =>
        refine ⟨rfl, ?_, fun h => by cases h⟩
        intro c hc
        simp only [List.mem_append, List.mem_singleton] at hc
        rcases hc with hc | hc
        · exact hbase c hc
        · rw [hc]; exact hadm
      | ok re =>
        refine ⟨rfl, ?_, ?_⟩
        · intro c hc
          simp only [List.mem_append, List.mem_singleton] at hc
          rcases hc with hc | hc
          · exact hbase c hc
          · rw [hc]; exact hadm
        · intro h
          simp only [Except.ok.injEq, decide_eq_true_eq] at h
          exact ⟨rr, ry, re, e1, e2, rfl, c1, c2, h⟩

theorem is_rho_temp_ye_valid_log_spec (e : eos_thermal) (rho temp ye : real_t) :
    (e.is_rho_temp_ye_valid_log rho temp ye).1
      = e.is_rho_temp_ye_valid rho temp ye ∧
    (∀ c, c ∈ (e.is_rho_temp_ye_valid_log rho temp ye).2 → call_admissible e c) ∧
    ((e.is_rho_temp_ye_valid_log rho temp ye).1 = .ok true →
      ∃ rr ry rt, e.impl.range_rho = .ok rr ∧ e.impl.range_ye = .ok ry ∧
        e.impl.range_temp rho ye = .ok rt ∧
        rr.contains rho ∧ ry.contains ye ∧ rt.contains temp) := by
  obtain ⟨h1, h2, h3⟩ := is_rho_ye_valid_log_spec e rho ye
  have hbase : ∀ c, c ∈ (e.is_rho_ye_valid_log rho ye).2 → call_admissible e c := by
    intro c hc
    rcases h2 c hc with h | h <;> rw [h] <;> trivial
  unfold eos_thermal.is_rho_temp_ye_valid_log eos_thermal.is_rho_temp_ye_valid
  rw [← h1]
  rcases hlog : e.is_rho_ye_valid_log rho ye with ⟨res, l⟩
  rw [hlog] at h3 hbase
  simp only at h3 hbase
  cases res with
  | error err => exact ⟨rfl, hbase, fun h => by cases h⟩
  | ok b =>
    cases b with
    | false => exact ⟨rfl, hbase, fun h => by cases h⟩
    | true =>
      obtain ⟨rr, ry, e1, e2, c1, c2⟩ := h3 rfl
      have hadm : call_admissible e (.range_temp rho ye) := ⟨rr, ry, e1, e2, c1, c2⟩
      cases hre : e.impl.range_temp rho ye with
      | error err =>
        refine ⟨rfl, ?_, fun h => by cases h⟩
        intro c hc
        simp only [List.mem_append, List.mem_singleton] at hc
        rcases hc with hc | hc
        · exact hbase c hc
        · rw [hc]; exact hadm
      | ok rt =>
        refine ⟨rfl, ?_, ?_⟩
        · intro c hc
          simp only [List.mem_append, List.mem_singleton] at hc
          rcases hc with hc | hc
          · exact hbase c hc
          · rw [hc]; exact hadm
        · intro h
          simp only [Except.ok.injEq, decide_eq_true_eq] at h
          exact ⟨rr, ry, rt, e1, e2, rfl, c1, c2, h⟩

theorem at_rho_eps_ye_log_spec (e : eos_thermal) (rho eps ye : real_t) :
    (e.at_rho_eps_ye_log rho eps ye).1 = e.at_rho_eps_ye rho eps ye ∧
    (∀ c, c ∈ (e.at_rho_eps_ye_log rho eps ye).2 → call_admissible e c) := by
  obtain ⟨h1, h2, h3⟩ := is_rho_eps_ye_valid_log_spec e rho eps ye
  unfold eos_thermal.at_rho_eps_ye_log eos_thermal.at_rho_eps_ye
  rw [← h1]
  rcases hlog : e.is_rho_eps_ye_valid_log rho eps ye with ⟨res, l⟩
  rw [hlog] at h2 h3
  simp only at h2 h3
  cases res with
  | error err => exact ⟨rfl, h2⟩
  | ok b =>
    cases b with
    | false => exact ⟨rfl, h2⟩
    | true =>
      have hadm : call_admissible e (.therm_from_rho_eps_ye rho eps ye) := h3 rfl
      cases hth : e.impl.therm_from_rho_eps_ye rho eps ye with
      | error err =>
        refine ⟨rfl, ?_⟩
        intro c hc
        simp only [List.mem_append, List.mem_singleton] at hc
        rcases hc with hc | hc
        · exact h2 c hc
        · rw [hc]; exact hadm
      | ok th =>
        refine ⟨rfl, ?_⟩
        intro c hc
        simp only [List.mem_append, List.mem_singleton] at hc
        rcases hc with hc | hc
        · exact h2 c hc
        · rw [hc]; exact hadm

theorem at_rho_temp_ye_log_spec (e : eos_thermal) (rho temp ye : real_t) :
    (e.at_rho_temp_ye_log rho temp ye).1 = e.at_rho_temp_ye rho temp ye ∧
    (∀ c, c ∈ (e.at_rho_temp_ye_log rho temp ye).2 → call_admissible e c) := by
  obtain ⟨h1, h2, h3⟩ := is_rho_temp_ye_valid_log_spec e rho temp ye
  unfold eos_thermal.at_rho_temp_ye_log eos_thermal.at_rho_temp_ye
  rw [← h1]
  rcases hlog : e.is_rho_temp_ye_valid_log rho temp ye with ⟨res, l⟩
  rw [hlog] at h2 h3
  simp only at h2 h3
  cases res with
  | error err => exact ⟨rfl, h2⟩
  | ok b =>
    cases b with
    | false => exact ⟨rfl, h2⟩
    | true =>
      have hadm : call_admissible e (.therm_from_rho_temp_ye rho temp ye) := h3 rfl
      cases hth : e.impl.therm_from_rho_temp_ye rho temp ye with
      | error err =>
        refine ⟨rfl, ?_⟩
        intro c hc
        simp only [List.mem_append, List.mem_singleton] at hc
        rcases hc with hc | hc
        · exact h2 c hc
        · rw [hc]; exact hadm
      | ok th =>
        refine ⟨rfl, ?_⟩
        intro c hc
        simp only [List.mem_append, List.mem_singleton] at hc
        rcases hc with hc | hc
        · exact h2 c hc
        · rw [hc]; exact hadm

theorem range_eps_log_spec (e : eos_thermal) (rho ye : real_t) :
    (e.range_eps_log rho ye).1 = e.range_eps rho ye ∧
    (∀ c, c ∈ (e.range_eps_log rho ye).2 → call_admissible e c) := by
  unfold eos_thermal.range_eps_log eos_thermal.range_eps
    eos_thermal.is_rho_valid_log eos_thermal.is_rho_valid
    eos_thermal.is_ye_valid_log eos_thermal.is_ye_valid
    eos_thermal.range_rho eos_thermal.range_ye
  cases hrr : e.impl.range_rho with
  | error err => simp [call_admissible]
  | ok rr =>
    by_cases h1 : rr.contains rho
    · cases hry : e.impl.range_ye with
      | error err => simp [h1, call_admissible]
      | ok ry =>
        by_cases h2 : ry.contains ye
        · simp [h1, h2, call_admissible, hrr, hry]
        · simp [h1, h2, call_admissible]
    · simp [h1, call_admissible]

theorem range_temp_log_spec (e : eos_thermal) (rho ye : real_t) :
    (e.range_temp_log rho ye).1 = e.range_temp rho ye ∧
    (∀ c, c ∈ (e.range_temp_log rho ye).2 → call_admissible e c) := by
  unfold eos_thermal.range_temp_log eos_thermal.range_temp
    eos_thermal.is_rho_valid_log eos_thermal.is_rho_valid
    eos_thermal.is_ye_valid_log eos_thermal.is_ye_valid
    eos_thermal.range_rho eos_thermal.range_ye
  cases hrr : e.impl.range_rho with
  | error err => simp [call_admissible]
  | ok rr =>
    by_cases h1 : rr.contains rho
    · cases hry : e.impl.range_ye with
      | error err => simp [h1, call_admissible]
      | ok ry =>
        by_cases h2 : ry.contains ye
        · simp [h1, h2, call_admissible, hrr, hry]
        · simp [h1, h2, call_admissible]
    · simp [h1, call_admissible]

/-- C27: the handle calls the implementation's `range_eps(rho, ye)` and
`range_temp(rho, ye)` only when `rho` is in `range_rho()` and `ye` in
`range_ye()`, and `therm_from_rho_eps_ye` / `therm_from_rho_temp_ye` only
when in addition `eps` (`temp`) lies in the range returned there: every call
recorded for the factories, the validity predicates and the public
`range_eps` / `range_temp` is admissible, and the recorded runs return the
results of the methods themselves. -/
theorem impl_calls_admissible (e : eos_thermal) (rho x ye : real_t) :
    ((e.at_rho_eps_ye_log rho x ye).1 = e.at_rho_eps_ye rho x ye ∧
     ∀ c, c ∈ (e.at_rho_eps_ye_log rho x ye).2 → call_admissible e c) ∧
    ((e.at_rho_temp_ye_log rho x ye).1 = e.at_rho_temp_ye rho x ye ∧
     ∀ c, c ∈ (e.at_rho_temp_ye_log rho x ye).2 → call_admissible e c) ∧
    ((e.is_rho_eps_ye_valid_log rho x ye).1 = e.is_rho_eps_ye_valid rho x ye ∧
     ∀ c, c ∈ (e.is_rho_eps_ye_valid_log rho x ye).2 → call_admissible e c) ∧
    ((e.is_rho_temp_ye_valid_log rho x ye).1 = e.is_rho_temp_ye_valid rho x ye ∧
     ∀ c, c ∈ (e.is_rho_temp_ye_valid_log rho x ye).2 → call_admissible e c) ∧
    ((e.range_eps_log rho ye).1 = e.range_eps rho ye ∧
     ∀ c, c ∈ (e.range_eps_log rho ye).2 → call_admissible e c) ∧
    ((e.range_temp_log rho ye).1 = e.range_temp rho ye ∧
     ∀ c, c ∈ (e.range_temp_log rho ye).2 → call_admissible e c) ∧
    (∀ r y, call_admissible e (.range_eps r y) →
      ∃ rr ry, e.impl.range_rho = .ok rr ∧ e.impl.range_ye = .ok ry ∧
        rr.contains r ∧ ry.contains y) ∧
    (∀ r v y, call_admissible e (.therm_from_rho_eps_ye r v y) →
      ∃ rr ry re, e.impl.range_rho = .ok rr ∧ e.impl.range_ye = .ok ry ∧
        e.impl.range_eps r y = .ok re ∧
        rr.contains r ∧ ry.contains y ∧ re.contains v) :=
  ⟨at_rho_eps_ye_log_spec e rho x ye, at_rho_temp_ye_log_spec e rho x ye,
    ⟨(is_rho_eps_ye_valid_log_spec e rho x ye).1,
      (is_rho_eps_ye_valid_log_spec e rho x ye).2.1⟩,
    ⟨(is_rho_temp_ye_valid_log_spec e rho x ye).1,
      (is_rho_temp_ye_valid_log_spec e rho x ye).2.1⟩,
    range_eps_log_spec e rho ye, range_temp_log_spec e rho ye,
    fun _ _ h => h, fun _ _ _ h => h⟩

/-- Instance of C27 on the sample implementation: the factory run at the
in-range point `(1, 2, 1/2)` records four calls, all admissible, and the run
at density `20` records only the call of `range_rho`. -/
theorem impl_calls_admissible_witness :
    (ex_thermal.at_rho_eps_ye_log 1 2 (1 / 2)).2
      = [.range_rho, .range_ye, .range_eps 1 (1 / 2),
         .therm_from_rho_eps_ye 1 2 (1 / 2)] ∧
    call_admissible ex_thermal (.therm_from_rho_eps_ye 1 2 (1 / 2)) ∧
    (ex_thermal.at_rho_eps_ye_log 20 2 (1 / 2)).2 = [.range_rho] :=
  have hlog : (ex_thermal.at_rho_eps_ye_log 1 2 (1 / 2)).2
      = [.range_rho, .range_ye, .range_eps 1 (1 / 2),
         .therm_from_rho_eps_ye 1 2 (1 / 2)] := by
    norm_num [eos_thermal.at_rho_eps_ye_log, eos_thermal.is_rho_eps_ye_valid_log,
      eos_thermal.is_rho_ye_valid_log, eos_thermal.impl, ex_thermal,
      ex_thermal_impl, interval.contains]
  have hout : (ex_thermal.at_rho_eps_ye_log 20 2 (1 / 2)).2 = [.range_rho] := by
    norm_num [eos_thermal.at_rho_eps_ye_log, eos_thermal.is_rho_eps_ye_valid_log,
      eos_thermal.is_rho_ye_valid_log, eos_thermal.impl, ex_thermal,
      ex_thermal_impl, interval.contains]
  ⟨hlog,
    (impl_calls_admissible ex_thermal 1 2 (1 / 2)).1.2 _
      (by rw [hlog]; simp),
    hout⟩

/-! ## con2prim driver: the polytropic density scale -/

/-- C29, evaluation of the code: with the driver's constants `K0` and
`gammas[0]` and the real power function, the value `rmdp0` passed to
`make_eos_barotr_pwpoly` is `1 / K0^(Gamma - 1)`, which is below `12`,
whereas the density scale of the driver's own comment,
`rho_P = 1 / K^(1/(Gamma - 1))`, is above `124`; the two differ. -/
theorem rmdp0_differs_from_comment :
    gammas.head? = some (135692 / 100000) ∧
    rmdp0 Real.rpow (K0 : ℝ) ((135692 / 100000 : real_t) : ℝ)
      = 1 / (K0 : ℝ) ^ ((35692 / 100000 : real_t) : ℝ) ∧
    rmdp0 Real.rpow (K0 : ℝ) ((135692 / 100000 : real_t) : ℝ) < 12 ∧
    124 < rho_P_of_comment Real.rpow (K0 : ℝ) ((135692 / 100000 : real_t) : ℝ) ∧
    rmdp0 Real.rpow (K0 : ℝ) ((135692 / 100000 : real_t) : ℝ)
      ≠ rho_P_of_comment Real.rpow (K0 : ℝ) ((135692 / 100000 : real_t) : ℝ) := by
  have hK : (K0 : ℝ) = 8950758861673326 / 100000000000000000 := by
    norm_num [K0]
  have hK0 : (0 : ℝ) < (K0 : ℝ) := by rw [hK]; norm_num
  have hK1 : (K0 : ℝ) < 1 := by rw [hK]; norm_num
  have hg : ((135692 / 100000 : real_t) : ℝ) - 1 = 35692 / 100000 := by
    push_cast
    norm_num
  have e1 : rmdp0 Real.rpow (K0 : ℝ) ((135692 / 100000 : real_t) : ℝ)
      = 1 / (K0 : ℝ) ^ ((35692 / 100000 : real_t) : ℝ) := by
    unfold rmdp0
    have : ((35692 / 100000 : real_t) : ℝ) = 35692 / 100000 := by push_cast; norm_num
    rw [hg, this]
    rfl
  have e2 : rmdp0 Real.rpow (K0 : ℝ) ((135692 / 100000 : real_t) : ℝ)
      = 1 / (K0 : ℝ) ^ (35692 / 100000 : ℝ) := by
    unfold rmdp0
    rw [hg]
    rfl
  have e3 : rho_P_of_comment Real.rpow (K0 : ℝ) ((135692 / 100000 : real_t) : ℝ)
      = 1 / (K0 : ℝ) ^ (1 / (35692 / 100000) : ℝ) := by
    unfold rho_P_of_comment
    rw [hg]
    rfl
  have hlow : (K0 : ℝ) ≤ (K0 : ℝ) ^ (35692 / 100000 : ℝ) := by
    have := Real.rpow_le_rpow_of_exponent_ge hK0 (le_of_lt hK1)
      (show (35692 / 100000 : ℝ) ≤ 1 by norm_num)
    rwa [Real.rpow_one] at this
  have hhigh : (K0 : ℝ) ^ (1 / (35692 / 100000) : ℝ) ≤ (K0 : ℝ) ^ (2 : ℕ) := by
    have := Real.rpow_le_rpow_of_exponent_ge hK0 (le_of_lt hK1)
      (show ((2 : ℕ) : ℝ) ≤ 1 / (35692 / 100000) by norm_num)
    rwa [Real.rpow_natCast] at this
  have hpos1 : (0 : ℝ) < (K0 : ℝ) ^ (35692 / 100000 : ℝ) := Real.rpow_pos_of_pos hK0 _
  have hpos2 : (0 : ℝ) < (K0 : ℝ) ^ (1 / (35692 / 100000) : ℝ) :=
    Real.rpow_pos_of_pos hK0 _
  have b1 : rmdp0 Real.rpow (K0 : ℝ) ((135692 / 100000 : real_t) : ℝ) < 12 := by
    rw [e2, div_lt_iff₀ hpos1]
    have : (1 : ℝ) < 12 * (K0 : ℝ) := by rw [hK]; norm_num
    nlinarith
  have b2 : 124 < rho_P_of_comment Real.rpow (K0 : ℝ)
      ((135692 / 100000 : real_t) : ℝ) := by
    rw [e3, lt_div_iff₀ hpos2]
    have : 124 * (K0 : ℝ) ^ (2 : ℕ) < 1 := by rw [hK]; norm_num
    nlinarith
  refine ⟨by norm_num [gammas], e1, b1, b2, ?_⟩
  intro h
  rw [h] at b1
  linarith

end EOS_Toolkit
